import Mathlib

/-!
# Verification of the dkpro-cassis core: cassis/cas.py and cassis/json.py

A shallow embedding of the CAS document model and its JSON wire protocol.
Python's mutable object graph is modelled by an explicit heap of numbered
cells; every CAS operation is a state transformer over that heap that can
also raise an error, mirroring Python exceptions raised by the source.

Conventions used throughout:
* A Python object reference is a heap address (`Nat`).
* `Cas` objects are records of addresses (`CasObj`); copying a `CasObj`
  while keeping its addresses models the attribute sharing performed by
  `Cas._copy`.
* Writing to the heap prepends a cell; `Heap.lookup` returns the most
  recent cell for an address, so a write shadows the previous value.
* Python exceptions are modelled by `Err`; an operation returns the heap
  as mutated up to the point where the exception was raised.
-/

namespace Cassis

/- Throughout, a heap address (the identity of one Python object) is a
plain `Nat`. -/

/-- A runtime value stored in a feature-structure field or appearing in the
parsed JSON wire data.  `vref` is a reference to another heap object (a
Python object reference); `vbytes` is a Python `bytes` value produced by
base64-decoding. -/
inductive Value where
  | vnull
  | vint (i : Int)
  | vstr (s : String)
  | vbool (b : Bool)
  | varr (elems : List Value)
  | vobj (fields : List (String × Value))
  | vref (a : Nat)
  | vbytes (bs : List Nat)
deriving Repr

/-! ## Association-list helpers

Python `dict`s preserve insertion order; updating an existing key keeps its
position and inserting a new key appends it at the end.  The helpers below
mirror exactly that behaviour for string-keyed and int-keyed dictionaries. -/

/-- Value of key `k` in an ordered string-keyed dictionary. -/
def alookup (k : String) : List (String × α) → Option α
  | [] => none
  | (k₂, v) :: rest => if k = k₂ then some v else alookup k rest

/-- Set key `k` to `v`: replace in place if present, else append at the end
(Python dict assignment). -/
def aset (k : String) (v : α) : List (String × α) → List (String × α)
  | [] => [(k, v)]
  | (k₂, v₂) :: rest => if k = k₂ then (k₂, v) :: rest else (k₂, v₂) :: aset k v rest

/-- Remove key `k` (Python `dict.pop`, first occurrence). -/
def apop (k : String) : List (String × α) → List (String × α)
  | [] => []
  | (k₂, v₂) :: rest => if k = k₂ then rest else (k₂, v₂) :: apop k rest

/-- Value of key `k` in an int-keyed dictionary (`dict.get`). -/
def ilookup (k : Int) : List (Int × α) → Option α
  | [] => none
  | (k₂, v) :: rest => if k = k₂ then some v else ilookup k rest

/-- Set key `k` to `v` in an int-keyed dictionary. -/
def iset (k : Int) (v : α) : List (Int × α) → List (Int × α)
  | [] => [(k, v)]
  | (k₂, v₂) :: rest => if k = k₂ then (k₂, v) :: rest else (k₂, v₂) :: iset k v rest

/-! ## Objects and the heap -/

/-- The `Sofa` record of cas.py (an `attr.s(slots=True)` class).

The `sofaArray` field is Modelled from the spec: the Sofa class in
src/cassis/cas.py does not declare it, but `CasJsonDeserializer._parse_sofa`
and `CasJsonSerializer.serialize` refer to it; section 3 of the spec gives a
Sofa an "optional reference to an array feature structure holding non-text
sofa data". -/
structure SofaObj where
  sofaNum : Int
  xmiID : Int
  sofaID : String
  sofaString : Option String := none
  mimeType : Option String := none
  sofaURI : Option String := none
  sofaArray : Option Nat := none
deriving Repr

/-- A generic feature structure: the dynamically generated `attrs` classes
produced by the type system.  `slots` is the list of declared feature names
(the `__slots__` of the instance); a declared feature that is absent from
`attrs` reads as `None`.  `xmiID` and `typeName` model the two attributes
every feature-structure class carries. -/
structure FSObj where
  typeName : String
  xmiID : Option Int := none
  slots : List String := []
  attrs : List (String × Value) := []
deriving Repr

/-- Python `getattr` on a feature structure: `xmiID` and `type` always
exist; a declared slot reads its stored value, defaulting to `None`;
anything else raises `AttributeError` (modelled by `none`). -/
def FSObj.getattr (f : FSObj) (name : String) : Option Value :=
  if name = "xmiID" then
    some (match f.xmiID with
      | some i => Value.vint i
      | none => Value.vnull)
  else if name = "type" then some (Value.vstr f.typeName)
  else if f.slots.contains name then some ((alookup name f.attrs).getD Value.vnull)
  else none

/-- The `View` object of cas.py: a sofa plus `_indices`, a dict from type
name to the sorted bucket of feature structures of that type.  Buckets hold
heap addresses, since the Python index stores object references. -/
structure ViewObj where
  sofa : Nat
  indices : List (String × List Nat) := []
deriving Repr

/-- One heap cell: the kinds of mutable Python objects the embedded code
manipulates.  `dict` is a name-to-object dictionary (`Cas._views`,
`Cas._sofas`); `gen` is an `IdGenerator` holding its `_next_id`; `sdict` is
a string-keyed value dictionary (the `attributes` dicts built by the JSON
deserializer, which deferred fix-ups later mutate). -/
inductive Obj where
  | dict (entries : List (String × Nat))
  | gen (nextId : Int)
  | view (v : ViewObj)
  | sofa (s : SofaObj)
  | fs (f : FSObj)
  | sdict (entries : List (String × Value))
deriving Repr

/-- The heap: a list of cells, most recent first, plus the next fresh
address.  A write prepends, shadowing older cells for the same address. -/
structure Heap where
  cells : List (Nat × Obj) := []
  next : Nat := 0
deriving Repr

/-- The most recent cell stored at address `a`. -/
def Heap.lookup (h : Heap) (a : Nat) : Option Obj :=
  go h.cells
where
  go : List (Nat × Obj) → Option Obj
    | [] => none
    | (a₂, o) :: rest => if a = a₂ then some o else go rest

/-- Allocate a fresh cell holding `o`; returns its address. -/
def Heap.alloc (h : Heap) (o : Obj) : Nat × Heap :=
  (h.next, { cells := (h.next, o) :: h.cells, next := h.next + 1 })

/-- Overwrite the cell at address `a` (Python attribute/field mutation). -/
def Heap.set (h : Heap) (a : Nat) (o : Obj) : Heap :=
  { cells := (a, o) :: h.cells, next := h.next }

/-- Well-formedness: every stored address was allocated, i.e. is below
`next`. -/
def Heap.WF (h : Heap) : Prop :=
  ∀ p ∈ h.cells, p.1 < h.next

/-- Python exceptions raised by the embedded code. -/
inductive Err where
  | duplicateView (name : String)
  | viewNotFound (name : String)
  | typeNotFound (name : String)
  | attrError (name : String)
  | typeError (msg : String)
  | keyError (msg : String)
deriving Repr

/-! ## The computation monad

`CasM α` is a stateful computation over the heap that either returns a
value or raises an exception.  On an exception the heap reflects all
mutations performed before the raise, exactly as in Python. -/

def CasM (α : Type) : Type := Heap → Except Err α × Heap

instance : Monad CasM where
  pure a := fun h => (Except.ok a, h)
  bind m f := fun h =>
    match m h with
    | (Except.ok a, h₂) => f a h₂
    | (Except.error e, h₂) => (Except.error e, h₂)

/-- Raise an exception. -/
def throwE (e : Err) : CasM α := fun h => (Except.error e, h)

/-- Read the whole heap. -/
def getH : CasM Heap := fun h => (Except.ok h, h)

/-- Replace the whole heap. -/
def setH (h₂ : Heap) : CasM Unit := fun _ => (Except.ok (), h₂)

/-- Allocate a fresh object, returning its address. -/
def allocObj (o : Obj) : CasM Nat := fun h =>
  let p := h.alloc o
  (Except.ok p.1, p.2)

/-- Mutate the object at address `a`. -/
def writeObj (a : Nat) (o : Obj) : CasM Unit := fun h =>
  (Except.ok (), h.set a o)

/-- Dereference `a`; raises `AttributeError`-style errors on a dangling
reference (impossible for heaps produced by the embedded operations). -/
def readObj (a : Nat) : CasM Obj := fun h =>
  match h.lookup a with
  | some o => (Except.ok o, h)
  | none => (Except.error (Err.attrError "dangling reference"), h)

/-- Read a name-to-address dictionary cell. -/
def readDict (a : Nat) : CasM (List (String × Nat)) := do
  match ← readObj a with
  | Obj.dict d => pure d
  | _ => throwE (Err.attrError "expected dict")

/-- Read an `IdGenerator` cell. -/
def readGen (a : Nat) : CasM Int := do
  match ← readObj a with
  | Obj.gen n => pure n
  | _ => throwE (Err.attrError "expected generator")

/-- Read a `View` cell. -/
def readView (a : Nat) : CasM ViewObj := do
  match ← readObj a with
  | Obj.view v => pure v
  | _ => throwE (Err.attrError "expected view")

/-- Read a `Sofa` cell. -/
def readSofa (a : Nat) : CasM SofaObj := do
  match ← readObj a with
  | Obj.sofa s => pure s
  | _ => throwE (Err.attrError "expected sofa")

/-- Read a feature-structure cell. -/
def readFS (a : Nat) : CasM FSObj := do
  match ← readObj a with
  | Obj.fs f => pure f
  | _ => throwE (Err.attrError "expected feature structure")

/-- Read a string-keyed value dictionary cell. -/
def readSDict (a : Nat) : CasM (List (String × Value)) := do
  match ← readObj a with
  | Obj.sdict d => pure d
  | _ => throwE (Err.attrError "expected attributes dict")

/-- `IdGenerator.generate_id`: return `_next_id` and increment it. -/
def generateId (genRef : Nat) : CasM Int := do
  let n ← readGen genRef
  writeObj genRef (Obj.gen (n + 1))
  pure n

/-! ## The external type system (consumed, not built)

cas.py and json.py consume a `TypeSystem` object: `get_type(name)` yields a
type with `name`, `supertypeName`, `children` and `all_features`;
`is_primitive(range_type_name)` and `is_collection(type_name, feature)` are
predicates; each feature has `name`, `rangeTypeName` and
`_has_reserved_name`.  The spec (section 6) fixes this interface for the
external collaborator, so it is embedded as plain data. -/

structure FeatureD where
  name : String
  rangeTypeName : String
  hasReservedName : Bool := false
deriving Repr

structure TypeD where
  name : String
  superTypeName : String := "uima.cas.TOP"
  features : List FeatureD := []
  childrenNames : List String := []
deriving Repr

structure TypeSystem where
  types : List TypeD := []
  primitiveTypes : List String := []
  collectionFeatures : List (String × String) := []
deriving Repr

/-- `TypeSystem.get_type`, total form. -/
def TypeSystem.getType? (ts : TypeSystem) (n : String) : Option TypeD :=
  ts.types.find? (fun t => t.name = n)

/-- `TypeSystem.is_primitive(range_type_name)`. -/
def TypeSystem.isPrimitive (ts : TypeSystem) (n : String) : Bool :=
  ts.primitiveTypes.contains n

/-- `TypeSystem.is_collection(type_name, feature)`. -/
def TypeSystem.isCollection (ts : TypeSystem) (tn : String) (fn : String) : Bool :=
  ts.collectionFeatures.contains (tn, fn)

/-- `TypeSystem.get_type` raising `TypeNotFoundError` for unknown names. -/
def getTypeM (ts : TypeSystem) (n : String) : CasM TypeD := do
  match ts.getType? n with
  | some t => pure t
  | none => throwE (Err.typeNotFound n)

/-! ## The index ordering (cas.py `_sort_func` and `SortedKeyList`) -/

/-- CPython `sys.maxsize` on a 64-bit build, used by `_sort_func` as the
sentinel sort key for structures without span fields. -/
def maxsize : Int := 9223372036854775807

/-- cas.py `_sort_func`: key `(begin, end)` when both names appear in the
structure's `__slots__`, else `(sys.maxsize, sys.maxsize)`.  A declared
span field holding a non-integer gives `none`, modelling the `TypeError`
Python raises when such a key is compared. -/
def sortKeyOf (f : FSObj) : Option (Int × Int) :=
  if f.slots.contains "begin" && f.slots.contains "end" then
    match alookup "begin" f.attrs, alookup "end" f.attrs with
    | some (Value.vint b), some (Value.vint e) => some (b, e)
    | _, _ => none
  else some (maxsize, maxsize)

/-- Python tuple comparison `<` on `(begin, end)` keys. -/
def pairLt (a b : Int × Int) : Bool :=
  decide (a.1 < b.1) || (decide (a.1 = b.1) && decide (a.2 < b.2))

/-- Python tuple comparison `<=` on `(begin, end)` keys. -/
def pairLe (a b : Int × Int) : Bool :=
  decide (a.1 < b.1) || (decide (a.1 = b.1) && decide (a.2 ≤ b.2))

/-- Sort key of the object stored at `a`, raising when the stored object is
not a feature structure or its key is unorderable. -/
def sortKeyM (a : Nat) : CasM (Int × Int) := do
  let f ← readFS a
  match sortKeyOf f with
  | some k => pure k
  | none => throwE (Err.typeError "unorderable sort key")

/-- `SortedKeyList.add`: insert `x` (whose key is `k`) before the first
element with a strictly greater key, i.e. after every element whose key is
less than or equal to `k` (`bisect_right` placement, which preserves
insertion order among equal keys). -/
def insortKey (x : Nat) (k : Int × Int) : List Nat → CasM (List Nat)
  | [] => pure [x]
  | y :: ys => do
      let ky ← sortKeyM y
      if pairLt k ky then pure (x :: y :: ys)
      else do
        let tail ← insortKey x k ys
        pure (y :: tail)

/-- `bisect_key_left`: the number of elements with key strictly below `k`
(the left insertion point in a key-sorted list). -/
def bisectKeyLeft (k : Int × Int) : List Nat → CasM Nat
  | [] => pure 0
  | a :: rest => do
      let ka ← sortKeyM a
      let n ← bisectKeyLeft k rest
      pure (if pairLt ka k then n + 1 else n)

/-- `bisect_key_right`: the number of elements with key at most `k` (the
right insertion point in a key-sorted list). -/
def bisectKeyRight (k : Int × Int) : List Nat → CasM Nat
  | [] => pure 0
  | a :: rest => do
      let ka ← sortKeyM a
      let n ← bisectKeyRight k rest
      pure (if pairLe ka k then n + 1 else n)

/-! ## Views -/

/-- `View.add_annotation_to_index`: insert the structure into the sorted
bucket of its own type name (`self._indices[annotation.type].add(...)`). -/
def addAnnotToIndex (vNat : Nat) (aNat : Nat) : CasM Unit := do
  let f ← readFS aNat
  let v ← readView vNat
  let k ← sortKeyM aNat
  let bucket := (alookup f.typeName v.indices).getD []
  let bucket2 ← insortKey aNat k bucket
  writeObj vNat (Obj.view { v with indices := aset f.typeName bucket2 v.indices })

/-- `View.get_all_annotations`: all bucket members, buckets in dict
insertion order. -/
def ViewObj.getAllAnnots (v : ViewObj) : List Nat :=
  v.indices.foldl (fun acc p => acc ++ p.2) []

/-! ## The Cas object -/

/-- The attributes of a `Cas` instance.  All mutable members are heap
references, matching the comment in `Cas.__init__` that the copying in
`Cas._copy` relies on every member being a mutable reference. -/
structure CasObj where
  ts : TypeSystem
  viewsRef : Nat
  sofasRef : Nat
  xmiGenRef : Nat
  sofaGenRef : Nat
  currentView : Nat
deriving Repr

/-- `Cas._add_view`: create the Sofa (consuming one identifier and one sofa
number) and a `View` around it, registering both under `name`.

The optional `xmiID?` and `sofaNum?` arguments are Modelled from the spec:
src/cassis/cas.py has no such parameters, but
`CasJsonDeserializer._get_or_create_view` calls
`cas.create_view(view_name, xmiID=fs_id, sofaNum=sofa_num)`; spec section
4.5 step 1 creates the view with the identifier and number taken from the
wire Sofa record.  When absent, the document allocators are consumed
exactly as in the source (`xmiID` first, then `sofaNum`). -/
def casAddView (c : CasObj) (name : String) (xmiID? : Option Int) (sofaNum? : Option Int) :
    CasM Unit := do
  let xid ← match xmiID? with
    | some i => pure i
    | none => generateId c.xmiGenRef
  let snum ← match sofaNum? with
    | some i => pure i
    | none => generateId c.sofaGenRef
  let sNat ← allocObj (Obj.sofa { sofaNum := snum, xmiID := xid, sofaID := name })
  let vNat ← allocObj (Obj.view { sofa := sNat })
  let vd ← readDict c.viewsRef
  writeObj c.viewsRef (Obj.dict (aset name vNat vd))
  let sd ← readDict c.sofasRef
  writeObj c.sofasRef (Obj.dict (aset name sNat sd))

/-- `Cas.__init__`: allocate `_sofas`, `_views` and the two `IdGenerator`s
(each starting at 1), add the `_InitialView` view, and make it current. -/
def casNew (ts : TypeSystem) : CasM CasObj := do
  let sofasRef ← allocObj (Obj.dict [])
  let viewsRef ← allocObj (Obj.dict [])
  let xmiGenRef ← allocObj (Obj.gen 1)
  let sofaGenRef ← allocObj (Obj.gen 1)
  let c : CasObj := { ts := ts, viewsRef := viewsRef, sofasRef := sofasRef,
                      xmiGenRef := xmiGenRef, sofaGenRef := sofaGenRef, currentView := 0 }
  casAddView c "_InitialView" none none
  let vd ← readDict viewsRef
  match alookup "_InitialView" vd with
  | some va => pure { c with currentView := va }
  | none => throwE (Err.keyError "_InitialView")

/-- `Cas._copy`: construct a fresh `Cas` (whose own dictionaries,
generators, sofa and view become garbage) and then rebind every attribute
to the originals, so that all mutable state is shared by reference. -/
def casCopy (c : CasObj) : CasM CasObj := do
  let tmp ← casNew c.ts
  pure ({ tmp with
            viewsRef := c.viewsRef
            sofasRef := c.sofasRef
            currentView := c.currentView
            sofaGenRef := c.sofaGenRef
            xmiGenRef := c.xmiGenRef
            ts := c.ts })

/-- `Cas.get_view`: a shallow copy of the document with only the current
view changed, or `KeyError` when `name` is not registered. -/
def getView (c : CasObj) (name : String) : CasM CasObj := do
  let vd ← readDict c.viewsRef
  match alookup name vd with
  | some va => do
      let result ← casCopy c
      pure { result with currentView := va }
  | none => throwE (Err.viewNotFound name)

/-- `Cas.create_view`: `ValueError` when `name` exists, else `_add_view`
followed by `get_view` (the `xmiID?`/`sofaNum?` passthrough is Modelled
from the spec as documented at `casAddView`). -/
def createView (c : CasObj) (name : String) (xmiID? : Option Int) (sofaNum? : Option Int) :
    CasM CasObj := do
  let vd ← readDict c.viewsRef
  if (alookup name vd).isSome then throwE (Err.duplicateView name)
  else do
    casAddView c name xmiID? sofaNum?
    getView c name

/-- `Cas.views`: the registered view objects in insertion order. -/
def casViews (c : CasObj) : CasM (List Nat) := do
  let vd ← readDict c.viewsRef
  pure (vd.map Prod.snd)

/-- `Cas.get_sofa`: the sofa of the current view. -/
def getSofaNat (c : CasObj) : CasM Nat := do
  let v ← readView c.currentView
  pure v.sofa

/-- `Cas.add_annotation`: allocate a fresh identifier and store it on the
structure, attach the current view's sofa when the structure declares a
`sofa` slot, and insert the structure into the current view's index.

The `keepId` mode is Modelled from the spec: src/cassis/cas.py has no such
parameter, but `CasJsonDeserializer._parse_view` calls
`view.add_annotation(fs, keep_id=True)`; spec section 4.3 keeps the carried
identifier (and allocates none) when the mode is requested. -/
def addAnnot (c : CasObj) (aNat : Nat) (keepId : Bool) : CasM Unit := do
  if !keepId then do
    let nextId ← generateId c.xmiGenRef
    let f ← readFS aNat
    writeObj aNat (Obj.fs { f with xmiID := some nextId })
  let f ← readFS aNat
  if f.slots.contains "sofa" then do
    let sNat ← getSofaNat c
    writeObj aNat (Obj.fs { f with attrs := aset "sofa" (Value.vref sNat) f.attrs })
  addAnnotToIndex c.currentView aNat

/-- `Cas.add_annotations`: the bulk variant. -/
def addAnnots (c : CasObj) : List Nat → CasM Unit
  | [] => pure ()
  | a :: rest => do
      addAnnot c a false
      addAnnots c rest

/-- `Cas.sofa_string` setter. -/
def setSofaString (c : CasObj) (val : Option String) : CasM Unit := do
  let sa ← getSofaNat c
  let s ← readSofa sa
  writeObj sa (Obj.sofa { s with sofaString := val })

/-- `Cas.sofa_mime` setter. -/
def setSofaMime (c : CasObj) (val : Option String) : CasM Unit := do
  let sa ← getSofaNat c
  let s ← readSofa sa
  writeObj sa (Obj.sofa { s with mimeType := val })

/-- `Cas.sofa_uri` setter. -/
def setSofaURI (c : CasObj) (val : Option String) : CasM Unit := do
  let sa ← getSofaNat c
  let s ← readSofa sa
  writeObj sa (Obj.sofa { s with sofaURI := val })

/-- Sofa-array setter, Modelled from the spec: src/cassis/cas.py has no
`sofa_array` property, but `CasJsonDeserializer._parse_sofa` assigns
`view.sofa_array = ...`; per spec section 3 the Sofa carries the optional
reference to the array feature structure holding non-text sofa data. -/
def setSofaArray (c : CasObj) (val : Option Nat) : CasM Unit := do
  let sa ← getSofaNat c
  let s ← readSofa sa
  writeObj sa (Obj.sofa { s with sofaArray := val })

/-! ## Queries -/

/-- The candidate type names of `Cas._get_feature_structures` and
`Cas._get_feature_structures_in_range`: the children of the type plus the
type itself (`{c.name for c in t.children}` followed by
`types.add(type_name)`).  CPython iterates this set in an unspecified
order; the embedding fixes children-first order with duplicates removed. -/
def candidateNames (ts : TypeSystem) (tn : String) : CasM (List String) := do
  let t ← getTypeM ts tn
  pure ((t.childrenNames ++ [tn]).eraseDups)

/-- `Cas._get_feature_structures`: concatenation of the candidate buckets
of the current view (a missing bucket of the defaultdict reads as empty). -/
def getFSList (c : CasObj) (tn : String) : CasM (List Nat) := do
  let names ← candidateNames c.ts tn
  let v ← readView c.currentView
  pure (names.foldl (fun acc n => acc ++ ((alookup n v.indices).getD [])) [])

/-- The per-bucket body of `Cas._get_feature_structures_in_range`:
`idx_begin = max(bisect_key_left((begin, end)) - 1, 0)`,
`idx_end = min(bisect_key_right((end, begin)), len(annotations))`, then the
slice `[idx_begin:idx_end]`.  The real `bisect` inspects only a logarithmic
number of keys; reading every key instead only widens the error cases on
buckets holding unorderable entries. -/
def rangeSliceGo (v : ViewObj) (b e : Int) : List String → CasM (List Nat)
  | [] => pure []
  | n :: rest => do
      let anns := (alookup n v.indices).getD []
      let bl ← bisectKeyLeft (b, e) anns
      let br ← bisectKeyRight (e, b) anns
      let idxBegin := bl - 1
      let idxEnd := min br anns.length
      let tail ← rangeSliceGo v b e rest
      pure ((anns.drop idxBegin).take (idxEnd - idxBegin) ++ tail)

/-- `Cas._get_feature_structures_in_range`. -/
def getFSInRange (c : CasObj) (tn : String) (b e : Int) : CasM (List Nat) := do
  let names ← candidateNames c.ts tn
  let v ← readView c.currentView
  rangeSliceGo v b e names

/-- Integer attribute read (`annotation.begin`, `annotation.end`). -/
def readIntAttr (a : Nat) (name : String) : CasM Int := do
  let f ← readFS a
  match f.getattr name with
  | some (Value.vint i) => pure i
  | some _ => throwE (Err.typeError name)
  | none => throwE (Err.attrError name)

/-- The filter loop of `Cas.select_covered`:
`annotation.begin >= c_begin and annotation.end <= c_end`, with Python's
short-circuit (the `end` attribute is only read when the first conjunct
holds). -/
def filterCovered (cb ce : Int) : List Nat → CasM (List Nat)
  | [] => pure []
  | a :: rest => do
      let b ← readIntAttr a "begin"
      if cb ≤ b then do
        let e ← readIntAttr a "end"
        let tail ← filterCovered cb ce rest
        pure (if e ≤ ce then a :: tail else tail)
      else filterCovered cb ce rest

/-- The filter loop of `Cas.select_covering`:
`c_begin >= annotation.begin and c_end <= annotation.end`, with Python's
short-circuit. -/
def filterCovering (cb ce : Int) : List Nat → CasM (List Nat)
  | [] => pure []
  | a :: rest => do
      let b ← readIntAttr a "begin"
      if b ≤ cb then do
        let e ← readIntAttr a "end"
        let tail ← filterCovering cb ce rest
        pure (if ce ≤ e then a :: tail else tail)
      else filterCovering cb ce rest

/-- `Cas.select`: all structures of the type (and its children) in the
current view. -/
def select (c : CasObj) (tn : String) : CasM (List Nat) :=
  getFSList c tn

/-- `Cas.select_covered`: bound the candidate window through the index
(`_get_feature_structures_in_range`) and keep the structures whose span is
contained in the anchor's span. -/
def selectCovered (c : CasObj) (tn : String) (coveringAnnot : Nat) : CasM (List Nat) := do
  let cb ← readIntAttr coveringAnnot "begin"
  let ce ← readIntAttr coveringAnnot "end"
  let candidates ← getFSInRange c tn cb ce
  filterCovered cb ce candidates

/-- `Cas.select_covering`: scan every candidate structure and keep those
whose span contains the anchor's span. -/
def selectCovering (c : CasObj) (tn : String) (coveredAnnot : Nat) : CasM (List Nat) := do
  let cb ← readIntAttr coveredAnnot "begin"
  let ce ← readIntAttr coveredAnnot "end"
  let candidates ← getFSList c tn
  filterCovering cb ce candidates

/-- `Cas.select_all`: every structure in the current view. -/
def selectAll (c : CasObj) : CasM (List Nat) := do
  let v ← readView c.currentView
  pure v.getAllAnnots

/-! ## Wire-format constants (json.py)

`RESERVED_FIELD_MARKER` and `REF_FEATURE_MARKER` carry the values of
json.py's reserved-field and reference-feature marker constants. -/

def RESERVED_FIELD_MARKER : String := "%"

def TYPE_FIELD : String := "%TYPE"

def TYPES_FIELD : String := "%TYPES"

def VIEWS_FIELD : String := "%VIEWS"

def VIEW_SOFA_FIELD : String := "%SOFA"

def VIEW_INDEX_FIELD : String := "%INDEX"

def FEATURE_STRUCTURES_FIELD : String := "%FEATURE_STRUCTURES"

def REF_FEATURE_MARKER : String := "@"

def ID_FIELD : String := "%ID"

def ELEMENTS_FIELD : String := "%ELEMENTS"

/-! The following `Cas` class constants are referenced by json.py but are
not defined in src/cassis/cas.py; they are Modelled from the spec (wire
format of section 6 together with the standard UIMA names; the default view
name `_InitialView` also appears literally in src/cassis/cas.py). -/

def NAME_DEFAULT_SOFA : String := "_InitialView"

def TYPE_NAME_SOFA : String := "uima.cas.Sofa"

def TYPE_NAME_BYTE_ARRAY : String := "uima.cas.ByteArray"

def TYPE_NAME_ARRAY_BASE : String := "uima.cas.ArrayBase"

def FEATURE_BASE_NAME_SOFAID : String := "sofaID"

def FEATURE_BASE_NAME_SOFANUM : String := "sofaNum"

def FEATURE_BASE_NAME_SOFASTRING : String := "sofaString"

def FEATURE_BASE_NAME_SOFAMIME : String := "mimeType"

def FEATURE_BASE_NAME_SOFAURI : String := "sofaURI"

def FEATURE_BASE_NAME_SOFAARRAY : String := "sofaArray"

/-! ## Base64 (the external `base64` module, modelled at its interface) -/

/-- Character `n` of the standard base64 alphabet. -/
def b64Char (n : Nat) : Char :=
  "ABCDEFGHIJKLMNOPQRSTUVWXYZabcdefghijklmnopqrstuvwxyz0123456789+/".toList.getD n 'A'

/-- `base64.b64encode` over a byte list, producing the padded text. -/
def b64encodeGo : List Nat → List Char
  | [] => []
  | [a] => [b64Char (a / 4), b64Char (a % 4 * 16), '=', '=']
  | [a, b] => [b64Char (a / 4), b64Char (a % 4 * 16 + b / 16), b64Char (b % 16 * 4), '=']
  | a :: b :: c :: rest =>
      b64Char (a / 4) :: b64Char (a % 4 * 16 + b / 16) ::
        b64Char (b % 16 * 4 + c / 64) :: b64Char (c % 64) :: b64encodeGo rest

/-- `base64.b64encode`. -/
def b64encode (bs : List Nat) : String := String.mk (b64encodeGo bs)

/-- The 6-bit value of one base64 character. -/
def b64DecChar (c : Char) : Option Nat :=
  "ABCDEFGHIJKLMNOPQRSTUVWXYZabcdefghijklmnopqrstuvwxyz0123456789+/".toList.indexOf? c

/-- `base64.b64decode`, strict form: `none` on malformed input models the
error the library raises. -/
def b64decodeGo : List Char → Option (List Nat)
  | [] => some []
  | a :: b :: c :: d :: rest => do
      let va ← b64DecChar a
      let vb ← b64DecChar b
      if c = '=' then
        if d = '=' ∧ rest = [] then some [va * 4 + vb / 16] else none
      else do
        let vc ← b64DecChar c
        if d = '=' then
          if rest = [] then some [va * 4 + vb / 16, vb % 16 * 16 + vc / 4] else none
        else do
          let vd ← b64DecChar d
          let tail ← b64decodeGo rest
          some ((va * 4 + vb / 16) :: (vb % 16 * 16 + vc / 4) :: (vc % 4 * 64 + vd) :: tail)
  | _ => none

/-- `base64.b64decode`. -/
def b64decode (s : String) : Option (List Nat) := b64decodeGo s.toList

/-- Python `str.startswith`, character-list form (the library
`String.startsWith` does not reduce definitionally, which the concrete
evaluations below rely on). -/
def strStartsWith (marker : String) (s : String) : Bool :=
  List.isPrefixOf marker.toList s.toList

/-! ## The JSON deserializer (`CasJsonDeserializer`)

The deserializer object's mutable fields (`_max_xmi_id`, `_max_sofa_num`,
`_post_processors`) are threaded explicitly as `DState`; the
`feature_structures` identifier table is threaded as `Table`. -/

/-- One deferred `fix_up` closure produced by `_resolve_references`.

All closures created during one `_resolve_references` call capture the same
`feature_name` and `value` variables of that call by reference.  By the
time the closures run the loop has finished, so `feature_name` holds the
stripped name of the last reference-marked key of the snapshot and `value`
holds the value of the last snapshot item (the loop variable `value` is
reassigned on every iteration, reference key or not).  `dictNat` is the
captured `attributes` dictionary itself. -/
structure PostProc where
  dictNat : Nat
  featName : String
  keyVal : Value
deriving Repr

/-- The mutable state of a `CasJsonDeserializer` instance. -/
structure DState where
  maxXmiId : Int := 0
  maxSofaNum : Int := 0
  postProcs : List PostProc := []
deriving Repr

/-- The `feature_structures` dictionary: identifier to constructed object. -/
abbrev Table := List (Int × Nat)

/-- The loop of `_resolve_references` over the snapshot
`list(attributes.items())`.  For each reference-marked key: pop it, resolve
immediately when the target identifier is already in the table, else count
one more deferral.  The accumulators track the closure variables
(`feature_name` from reference keys only; `value` from every item). -/
def resolveRefsLoop (dNat : Nat) (table : Table) :
    List (String × Value) → Option String → Option Value → Nat →
    CasM (Option String × Option Value × Nat)
  | [], la, lv, n => pure (la, lv, n)
  | (k, v) :: rest, la, _lv, n => do
      if strStartsWith REF_FEATURE_MARKER k then do
        let d ← readSDict dNat
        writeObj dNat (Obj.sdict (apop k d))
        let featureName := k.drop 1
        let target := match v with
          | Value.vint i => ilookup i table
          | _ => none
        match target with
        | some tNat => do
            let d2 ← readSDict dNat
            writeObj dNat (Obj.sdict (aset featureName (Value.vref tNat) d2))
            resolveRefsLoop dNat table rest (some featureName) (some v) n
        | none => resolveRefsLoop dNat table rest (some featureName) (some v) (n + 1)
      else resolveRefsLoop dNat table rest la (some v) n

/-- `CasJsonDeserializer._resolve_references`: run the loop, then append
one `fix_up` closure per deferral; each records the final values of the
shared closure variables as explained at `PostProc`. -/
def resolveReferences (dNat : Nat) (table : Table) (st : DState) : CasM DState := do
  let snapshot ← readSDict dNat
  let r ← resolveRefsLoop dNat table snapshot none none 0
  match r with
  | (some fn, some lv, n) =>
      pure { st with postProcs :=
        st.postProcs ++ List.replicate n { dictNat := dNat, featName := fn, keyVal := lv } }
  | _ => pure st

/-- `CasJsonDeserializer._strip_reserved_json_keys`. -/
def stripReservedKeys (dNat : Nat) : CasM Unit := do
  let d ← readSDict dNat
  writeObj dNat (Obj.sdict (d.filter (fun kv => !strStartsWith RESERVED_FIELD_MARKER kv.1)))

/-- Execute the deferred `fix_up` closures after all records are parsed:
each writes `feature_structures.get(value)` (the object when the
identifier is now known, else `None`) into its captured `attributes`
dictionary — which the constructed feature structure no longer reads. -/
def runPostProcs (table : Table) : List PostProc → CasM Unit
  | [] => pure ()
  | p :: rest => do
      let d ← readSDict p.dictNat
      let tv := match p.keyVal with
        | Value.vint i => ilookup i table
        | _ => none
      let newV := match tv with
        | some a => Value.vref a
        | none => Value.vnull
      writeObj p.dictNat (Obj.sdict (aset p.featName newV d))
      runPostProcs table rest

/-- `AnnotationType(**attributes)`: construct the dynamically generated
`attrs` class of type `t`.  `xmiID` is a class attribute; every other
keyword must be a declared feature (`all_features`), else the constructor
raises `TypeError`. -/
def mkFSGo (tName : String) (slots : List String) :
    List (String × Value) → Option Int → List (String × Value) → CasM FSObj
  | [], xmi, attrs => pure { typeName := tName, xmiID := xmi, slots := slots, attrs := attrs }
  | (k, v) :: rest, xmi, attrs =>
      if k = "xmiID" then
        match v with
        | Value.vint i => mkFSGo tName slots rest (some i) attrs
        | Value.vnull => mkFSGo tName slots rest none attrs
        | _ => throwE (Err.typeError "xmiID")
      else if slots.contains k then mkFSGo tName slots rest xmi (aset k v attrs)
      else throwE (Err.typeError "unexpected keyword argument")

/-- Feature-structure construction through the type system. -/
def mkFS (t : TypeD) (entries : List (String × Value)) : CasM FSObj :=
  mkFSGo t.name (t.features.map (fun fd => fd.name)) entries none []

/-- `CasJsonDeserializer._parse_feature_structure`: copy the record into a
fresh `attributes` dictionary, map the identifier to `xmiID`, remap the
reserved Python names `self`/`type`, base64-decode byte arrays, resolve or
defer references, strip reserved keys, track the maximum identifier, and
construct the feature structure from the dictionary's current contents.
`fsIdV` is the raw `json_fs.get(ID_FIELD)` value (`vnull` when absent);
a non-integer surfaces as the `TypeError` Python raises at the
`max(attributes["xmiID"], ...)` step. -/
def parseFeatureStructure (ts : TypeSystem) (fsIdV : Value) (jsonFs : List (String × Value))
    (table : Table) (st : DState) : CasM (Nat × DState) := do
  let tName ← match alookup TYPE_FIELD jsonFs with
    | some (Value.vstr s) => pure s
    | _ => throwE (Err.typeNotFound "missing %TYPE")
  let t ← getTypeM ts tName
  let dNat ← allocObj (Obj.sdict jsonFs)
  let d ← readSDict dNat
  writeObj dNat (Obj.sdict (aset "xmiID" fsIdV d))
  let d2 ← readSDict dNat
  match alookup "self" d2 with
  | some v => writeObj dNat (Obj.sdict (aset "self_" v (apop "self" d2)))
  | none => pure ()
  let d3 ← readSDict dNat
  match alookup "type" d3 with
  | some v => writeObj dNat (Obj.sdict (aset "type_" v (apop "type" d3)))
  | none => pure ()
  if t.name = TYPE_NAME_BYTE_ARRAY then do
    let d4 ← readSDict dNat
    match alookup ELEMENTS_FIELD d4 with
    | some (Value.vstr s) =>
        match b64decode s with
        | some bs => writeObj dNat (Obj.sdict (aset "elements" (Value.vbytes bs) d4))
        | none => throwE (Err.typeError "invalid base64 input")
    | _ => throwE (Err.typeError "b64decode argument")
  let st2 ← resolveReferences dNat table st
  stripReservedKeys dNat
  let d5 ← readSDict dNat
  let xid ← match alookup "xmiID" d5 with
    | some (Value.vint i) => pure i
    | _ => throwE (Err.typeError "max of non-integer")
  let st3 := { st2 with maxXmiId := max xid st2.maxXmiId }
  let f ← mkFS t d5
  let aNat ← allocObj (Obj.fs f)
  pure (aNat, st3)

/-- `CasJsonDeserializer._get_or_create_view`: reuse the default view
(forcing the wire identifier onto its sofa when given, see upstream issue
155), else `create_view` with the wire identifier and sofa number. -/
def getOrCreateView (c : CasObj) (viewName : String) (fsId : Option Int)
    (sofaNum : Option Int) : CasM CasObj := do
  if viewName = NAME_DEFAULT_SOFA then do
    let view ← getView c NAME_DEFAULT_SOFA
    match fsId with
    | some i => do
        let sa ← getSofaNat view
        let s ← readSofa sa
        writeObj sa (Obj.sofa { s with xmiID := i })
    | none => pure ()
    pure view
  else createView c viewName fsId sofaNum

/-- Convert an optional JSON value to the optional string accepted by the
Sofa field validators (`str` or `None`). -/
def asOptStr (v : Option Value) : CasM (Option String) := do
  match v with
  | some (Value.vstr s) => pure (some s)
  | some Value.vnull => pure none
  | none => pure none
  | some _ => throwE (Err.typeError "expected str or None")

/-- `CasJsonDeserializer._parse_sofa`: get or create the view named by the
record's `sofaID`, copy the sofa payload fields onto it, resolve the
`sofaArray` reference through the table, and return the view's sofa. -/
def parseSofa (c : CasObj) (fsId : Option Int) (jsonFs : List (String × Value))
    (table : Table) : CasM Nat := do
  let name ← match alookup FEATURE_BASE_NAME_SOFAID jsonFs with
    | some (Value.vstr s) => pure s
    | _ => throwE (Err.typeError "sofaID")
  let num ← match alookup FEATURE_BASE_NAME_SOFANUM jsonFs with
    | some (Value.vint i) => pure (some i)
    | some Value.vnull => pure (none : Option Int)
    | none => pure (none : Option Int)
    | some _ => throwE (Err.typeError "sofaNum")
  let view ← getOrCreateView c name fsId num
  setSofaString view (← asOptStr (alookup FEATURE_BASE_NAME_SOFASTRING jsonFs))
  setSofaMime view (← asOptStr (alookup FEATURE_BASE_NAME_SOFAMIME jsonFs))
  setSofaURI view (← asOptStr (alookup FEATURE_BASE_NAME_SOFAURI jsonFs))
  let arr := match alookup (REF_FEATURE_MARKER ++ FEATURE_BASE_NAME_SOFAARRAY) jsonFs with
    | some (Value.vint i) => ilookup i table
    | _ => none
  setSofaArray view arr
  getSofaNat view

/-- The member loop of `_parse_view`: look each listed identifier up in the
table (`KeyError` when unknown) and re-add the structure to the view's
index keeping its identifier. -/
def parseViewMembers (view : CasObj) (table : Table) : List Value → CasM Unit
  | [] => pure ()
  | m :: rest => do
      let aNat ← match m with
        | Value.vint i =>
            match ilookup i table with
            | some a => pure a
            | none => throwE (Err.keyError "member id not in feature_structures")
        | _ => throwE (Err.keyError "member id")
      addAnnot view aNat true
      parseViewMembers view table rest

/-- `CasJsonDeserializer._parse_view`. -/
def parseView (c : CasObj) (viewName : String) (jsonView : Value) (table : Table) :
    CasM Unit := do
  let view ← getOrCreateView c viewName none none
  let members ← match jsonView with
    | Value.vobj fields =>
        match alookup VIEW_INDEX_FIELD fields with
        | some (Value.varr xs) => pure xs
        | some _ => throwE (Err.typeError "%INDEX")
        | none => throwE (Err.keyError "%INDEX")
    | _ => throwE (Err.typeError "view record")
  parseViewMembers view table members

/-- Whether a record's `%TYPE` equals the Sofa type name (the comparison
`json_fs.get(TYPE_FIELD) == Cas.TYPE_NAME_SOFA`; any non-string compares
unequal). -/
def isSofaRecord (jsonFs : List (String × Value)) : Bool :=
  match alookup TYPE_FIELD jsonFs with
  | some (Value.vstr s) => s = TYPE_NAME_SOFA
  | _ => false

/-- The list branch of the record loop in `deserialize`: dispatch each
record to `_parse_sofa` or `_parse_feature_structure` and register the
result in the table under its `xmiID`. -/
def parseRecordsList (ts : TypeSystem) (c : CasObj) :
    List Value → Table → DState → CasM (Table × DState)
  | [], table, st => pure (table, st)
  | r :: rest, table, st => do
      let jsonFs ← match r with
        | Value.vobj fields => pure fields
        | _ => throwE (Err.attrError "record is not an object")
      if isSofaRecord jsonFs then do
        let fsId ← match (alookup ID_FIELD jsonFs).getD Value.vnull with
          | Value.vint i => pure (some i)
          | Value.vnull => pure (none : Option Int)
          | _ => throwE (Err.typeError "%ID")
        let sNat ← parseSofa c fsId jsonFs table
        let s ← readSofa sNat
        parseRecordsList ts c rest (iset s.xmiID sNat table) st
      else do
        let fsIdV := (alookup ID_FIELD jsonFs).getD Value.vnull
        let pr ← parseFeatureStructure ts fsIdV jsonFs table st
        let f ← readFS pr.1
        let xid ← match f.xmiID with
          | some i => pure i
          | none => throwE (Err.typeError "missing xmiID")
        parseRecordsList ts c rest (iset xid pr.1 table) pr.2

/-- The dict branch of the record loop in `deserialize`: keys are
stringified identifiers converted with `int(...)`. -/
def parseRecordsDict (ts : TypeSystem) (c : CasObj) :
    List (String × Value) → Table → DState → CasM (Table × DState)
  | [], table, st => pure (table, st)
  | (key, r) :: rest, table, st => do
      let jsonFs ← match r with
        | Value.vobj fields => pure fields
        | _ => throwE (Err.attrError "record is not an object")
      let fsIdNum ← match key.toInt? with
        | some i => pure i
        | none => throwE (Err.typeError "invalid literal for int")
      if isSofaRecord jsonFs then do
        let sNat ← parseSofa c (some fsIdNum) jsonFs table
        let s ← readSofa sNat
        parseRecordsDict ts c rest (iset s.xmiID sNat table) st
      else do
        let pr ← parseFeatureStructure ts (Value.vint fsIdNum) jsonFs table st
        let f ← readFS pr.1
        let xid ← match f.xmiID with
          | some i => pure i
          | none => throwE (Err.typeError "missing xmiID")
        parseRecordsDict ts c rest (iset xid pr.1 table) pr.2

/-- The view loop at the end of `deserialize`. -/
def processViews (c : CasObj) (table : Table) : List (String × Value) → CasM Unit
  | [] => pure ()
  | (name, jv) :: rest => do
      parseView c name jv table
      processViews c table rest

/-- `CasJsonDeserializer.deserialize` on the parsed JSON value (the
`json.loads` of the source text): read and ignore the types section, build
a fresh `Cas`, parse the feature-structure records (list or dict form), run
the deferred fix-ups, rebind both document allocators to fresh generators
seeded from the tracked maxima, then process the view summaries. -/
def deserializeData (ts : TypeSystem) (data : Value) : CasM CasObj := do
  let fields ← match data with
    | Value.vobj fs => pure fs
    | _ => throwE (Err.attrError "data is not an object")
  let _ := alookup TYPES_FIELD fields
  let c ← casNew ts
  let jfs := alookup FEATURE_STRUCTURES_FIELD fields
  let ps ← match jfs with
    | some (Value.varr records) => parseRecordsList ts c records [] {}
    | some (Value.vobj entries) => parseRecordsDict ts c entries [] {}
    | _ => pure (([] : Table), ({} : DState))
  runPostProcs ps.1 ps.2.postProcs
  let g1 ← allocObj (Obj.gen (ps.2.maxXmiId + 1))
  let g2 ← allocObj (Obj.gen (ps.2.maxSofaNum + 1))
  let c2 := { c with xmiGenRef := g1, sofaGenRef := g2 }
  let jviews ← match alookup VIEWS_FIELD fields with
    | some (Value.vobj vs) => pure vs
    | _ => throwE (Err.attrError "views section")
  processViews c2 ps.1 jviews
  pure c2

/-! ## The JSON serializer (`CasJsonSerializer`) -/

/-- `getattr` on a sofa object (the serializer feeds `view.sofa` to
`_serialize_feature_structure`).  The `type` attribute is Modelled from the
spec: section 4.4 emits the Sofa as a feature-structure record of the Sofa
type, so the object exposes the Sofa type name. -/
def sofaGetattr (s : SofaObj) (name : String) : Option Value :=
  if name = "xmiID" then some (Value.vint s.xmiID)
  else if name = "type" then some (Value.vstr TYPE_NAME_SOFA)
  else if name = FEATURE_BASE_NAME_SOFANUM then some (Value.vint s.sofaNum)
  else if name = FEATURE_BASE_NAME_SOFAID then some (Value.vstr s.sofaID)
  else if name = FEATURE_BASE_NAME_SOFASTRING then
    some (match s.sofaString with
      | some x => Value.vstr x
      | none => Value.vnull)
  else if name = FEATURE_BASE_NAME_SOFAMIME then
    some (match s.mimeType with
      | some x => Value.vstr x
      | none => Value.vnull)
  else if name = FEATURE_BASE_NAME_SOFAURI then
    some (match s.sofaURI with
      | some x => Value.vstr x
      | none => Value.vnull)
  else if name = FEATURE_BASE_NAME_SOFAARRAY then
    some (match s.sofaArray with
      | some a => Value.vref a
      | none => Value.vnull)
  else none

/-- Python `getattr` on the objects the serializer walks. -/
def getattrVal (a : Nat) (name : String) : CasM Value := do
  match ← readObj a with
  | Obj.fs f =>
      match f.getattr name with
      | some v => pure v
      | none => throwE (Err.attrError name)
  | Obj.sofa s =>
      match sofaGetattr s name with
      | some v => pure v
      | none => throwE (Err.attrError name)
  | _ => throwE (Err.attrError name)

/-- `value.xmiID` on a referenced object (the reference encoding step). -/
def refXmiID (v : Value) : CasM Value := do
  match v with
  | Value.vref a => getattrVal a "xmiID"
  | _ => throwE (Err.attrError "xmiID")

/-- The feature loop of `_serialize_feature_structure`: skip the common
names, strip the reserved-name underscore, omit `None` values, then encode
byte-array elements as base64, other array elements literally, primitives
literally, and everything else as a reference-marked identifier. -/
def serializeFeatures (ts : TypeSystem) (tName : String) (superName : String) (a : Nat) :
    List FeatureD → List (String × Value) → CasM (List (String × Value))
  | [], json => pure json
  | fd :: rest, json => do
      if fd.name = "xmiID" || fd.name = "type" then
        serializeFeatures ts tName superName a rest json
      else do
        let featureName := if fd.hasReservedName then fd.name.dropRight 1 else fd.name
        let value ← getattrVal a fd.name
        match value with
        | Value.vnull => serializeFeatures ts tName superName a rest json
        | _ =>
          if tName = TYPE_NAME_BYTE_ARRAY ∧ featureName = "elements" then
            match value with
            | Value.vbytes bs =>
                serializeFeatures ts tName superName a rest
                  (aset ELEMENTS_FIELD (Value.vstr (b64encode bs)) json)
            | _ => throwE (Err.typeError "b64encode argument")
          else if superName = TYPE_NAME_ARRAY_BASE ∧ featureName = "elements" then
            serializeFeatures ts tName superName a rest (aset ELEMENTS_FIELD value json)
          else if ts.isPrimitive fd.rangeTypeName then
            serializeFeatures ts tName superName a rest (aset featureName value json)
          else if ts.isCollection tName fd.name then do
            let x ← refXmiID value
            serializeFeatures ts tName superName a rest
              (aset (REF_FEATURE_MARKER ++ featureName) x json)
          else do
            let x ← refXmiID value
            serializeFeatures ts tName superName a rest
              (aset (REF_FEATURE_MARKER ++ featureName) x json)

/-- `CasJsonSerializer._serialize_feature_structure`. -/
def serializeFS (ts : TypeSystem) (a : Nat) : CasM (List (String × Value)) := do
  let xmiV ← getattrVal a "xmiID"
  let typeV ← getattrVal a "type"
  let tName ← match typeV with
    | Value.vstr s => pure s
    | _ => throwE (Err.typeNotFound "fs.type")
  let t ← getTypeM ts tName
  serializeFeatures ts t.name t.superTypeName a t.features
    [(ID_FIELD, xmiV), (TYPE_FIELD, typeV)]

/-- The identifiers of the indexed structures of a view
(`x.xmiID for x in view.get_all_annotations()`). -/
def idsOfAnnots : List Nat → CasM (List Int)
  | [] => pure []
  | a :: rest => do
      let v ← getattrVal a "xmiID"
      match v with
      | Value.vint i => do
          let tail ← idsOfAnnots rest
          pure (i :: tail)
      | _ => throwE (Err.typeError "unorderable xmiID")

/-- Ascending insertion keeping later equal elements after earlier ones
(`sorted` is stable). -/
def insortInt (x : Int) : List Int → List Int
  | [] => [x]
  | y :: ys => if x < y then x :: y :: ys else y :: insortInt x ys

/-- `sorted` over integers. -/
def sortInts (l : List Int) : List Int :=
  l.foldl (fun acc x => insortInt x acc) []

/-- `CasJsonSerializer._serialize_view`. -/
def serializeViewSummary (vNat : Nat) : CasM Value := do
  let v ← readView vNat
  let s ← readSofa v.sofa
  let ids ← idsOfAnnots v.getAllAnnots
  pure (Value.vobj [(VIEW_SOFA_FIELD, Value.vint s.xmiID),
                    (VIEW_INDEX_FIELD, Value.varr ((sortInts ids).map Value.vint))])

/-- The feature-structure addresses directly referenced from the fields of
the structure at `a`. -/
def reachStep (h : Heap) (a : Nat) : List Nat :=
  match h.lookup a with
  | some (Obj.fs f) =>
      f.attrs.foldl
        (fun acc kv =>
          match kv.2 with
          | Value.vref b =>
              match h.lookup b with
              | some (Obj.fs _) => acc ++ [b]
              | _ => acc
          | _ => acc) []
  | _ => []

/-- Bounded breadth-first closure over feature-structure references. -/
def reachAll (h : Heap) : Nat → List Nat → List Nat → List Nat
  | 0, _, visited => visited
  | _ + 1, [], visited => visited
  | fuel + 1, a :: front, visited =>
      if visited.contains a then reachAll h fuel front visited
      else reachAll h fuel (front ++ reachStep h a) (visited ++ [a])

/-- Modelled from the spec: `Cas._find_all_fs` is called by the serializer
but is not defined in src/cassis/cas.py.  Spec section 4.4 makes it the set
of every feature structure reachable from the document, "not limited to
structures reachable from some view's index": the members of every view's
index plus everything transitively referenced from their fields.  Sofas are
emitted separately by the serializer and are not part of this set. -/
def findAllFs (c : CasObj) : CasM (List Nat) := do
  let vd ← readDict c.viewsRef
  let roots ← collectRoots vd
  let h ← getH
  pure (reachAll h (h.cells.length * h.cells.length + roots.length + 1) roots [])
where
  collectRoots : List (String × Nat) → CasM (List Nat)
    | [] => pure []
    | (_, vNat) :: rest => do
        let v ← readView vNat
        let tail ← collectRoots rest
        pure (v.getAllAnnots ++ tail)

/-- Read the integer identifier used as the sort key of
`sorted(cas._find_all_fs(), key=lambda a: a.xmiID)`. -/
def xmiKeyOf (a : Nat) : CasM Int := do
  let v ← getattrVal a "xmiID"
  match v with
  | Value.vint i => pure i
  | _ => throwE (Err.typeError "unorderable xmiID")

/-- Stable ascending insertion by a precomputed integer key. -/
def insortByKey (x : Nat) (kx : Int) : List (Nat × Int) → List (Nat × Int)
  | [] => [(x, kx)]
  | (y, ky) :: ys => if kx < ky then (x, kx) :: (y, ky) :: ys else (y, ky) :: insortByKey x kx ys

/-- `sorted(..., key=lambda a: a.xmiID)`. -/
def sortedByXmi (l : List Nat) : CasM (List Nat) := do
  let keyed ← go l
  pure ((keyed.foldl (fun acc p => insortByKey p.1 p.2 acc) []).map Prod.fst)
where
  go : List Nat → CasM (List (Nat × Int))
    | [] => pure []
    | a :: rest => do
        let k ← xmiKeyOf a
        let tail ← go rest
        pure ((a, k) :: tail)

/-- The per-view loop of `CasJsonSerializer.serialize`: record the view
summary under the sofa name, emit the sofa-array record when present, then
the sofa record. -/
def serializeViewsLoop (ts : TypeSystem) :
    List (String × Nat) → List (String × Value) → List Value →
    CasM (List (String × Value) × List Value)
  | [], views, fss => pure (views, fss)
  | (_, vNat) :: rest, views, fss => do
      let v ← readView vNat
      let s ← readSofa v.sofa
      let summary ← serializeViewSummary vNat
      let views2 := aset s.sofaID summary views
      let fss2 ← match s.sofaArray with
        | some arrNat => do
            let j ← serializeFS ts arrNat
            pure (fss ++ [Value.vobj j])
        | none => pure fss
      let jsofa ← serializeFS ts v.sofa
      serializeViewsLoop ts rest views2 (fss2 ++ [Value.vobj jsofa])

/-- The remaining-structure loop of `CasJsonSerializer.serialize`. -/
def serializeFSLoop (ts : TypeSystem) : List Nat → List Value → CasM (List Value)
  | [], acc => pure acc
  | a :: rest, acc => do
      let j ← serializeFS ts a
      serializeFSLoop ts rest (acc ++ [Value.vobj j])

/-- `CasJsonSerializer.serialize` (producing the JSON value that
`json.dump` would write): the empty types section, the per-view summaries,
and all feature-structure records — per view its array and sofa records,
then every reachable structure sorted by identifier. -/
def serializeCas (c : CasObj) : CasM Value := do
  let vd ← readDict c.viewsRef
  let vf ← serializeViewsLoop c.ts vd [] []
  let allFs ← findAllFs c
  let sortedFs ← sortedByXmi allFs
  let fss2 ← serializeFSLoop c.ts sortedFs vf.2
  pure (Value.vobj [(TYPES_FIELD, Value.vobj []),
                    (VIEWS_FIELD, Value.vobj vf.1),
                    (FEATURE_STRUCTURES_FIELD, Value.varr fss2)])

/-! ## Observation helpers

Projections used by the theorems to read a run's outcome and the document
state it produced. -/

/-- The returned value of a run, discarding the error case. -/
def okOf (r : Except Err α × Heap) : Option α :=
  match r.1 with
  | Except.ok a => some a
  | Except.error _ => none

/-- Read one feature of the feature structure stored at `a` (through
`getattr`, so a declared-but-unset feature reads `vnull`). -/
def fsAttrValue (h : Heap) (a : Nat) (feat : String) : Option Value :=
  match h.lookup a with
  | some (Obj.fs f) => f.getattr feat
  | _ => none

/-- The index bucket of type `tn` of the view object stored at `vNat`. -/
def viewBucket (h : Heap) (vNat : Nat) (tn : String) : Option (List Nat) :=
  match h.lookup vNat with
  | some (Obj.view v) => alookup tn v.indices
  | _ => none

/-- The registered view names, as observed through a document handle. -/
def casViewNames (h : Heap) (c : CasObj) : Option (List String) :=
  match h.lookup c.viewsRef with
  | some (Obj.dict d) => some (d.map Prod.fst)
  | _ => none

/-- The index bucket of type `tn` of the view registered under `name`, as
observed through a document handle. -/
def casViewIndex (h : Heap) (c : CasObj) (name : String) (tn : String) : Option (List Nat) :=
  match h.lookup c.viewsRef with
  | some (Obj.dict d) =>
      match alookup name d with
      | some vNat => viewBucket h vNat tn
      | none => none
  | _ => none

/-- The next identifier the document's feature-structure allocator will
issue, as observed through a document handle. -/
def nextXmiId (h : Heap) (c : CasObj) : Option Int :=
  match h.lookup c.xmiGenRef with
  | some (Obj.gen n) => some n
  | _ => none

/-- The next sofa number the document's sofa allocator will issue. -/
def nextSofaNum (h : Heap) (c : CasObj) : Option Int :=
  match h.lookup c.sofaGenRef with
  | some (Obj.gen n) => some n
  | _ => none

/-- The sofa registered under a view name, as observed through a handle. -/
def sofaOfView (h : Heap) (c : CasObj) (name : String) : Option SofaObj :=
  match h.lookup c.sofasRef with
  | some (Obj.dict d) =>
      match alookup name d with
      | some sNat =>
          match h.lookup sNat with
          | some (Obj.sofa s) => some s
          | _ => none
      | none => none
  | _ => none

/-! ## Run lemmas for the monad and the heap -/

theorem bindApply (m : CasM α) (f : α → CasM β) (h : Heap) :
    (m >>= f) h = match m h with
    | (Except.ok a, h₂) => f a h₂
    | (Except.error e, h₂) => (Except.error e, h₂) := rfl

theorem pureApply (a : α) (h : Heap) : (pure a : CasM α) h = (Except.ok a, h) := rfl

theorem throwEApply (e : Err) (h : Heap) : (throwE e : CasM α) h = (Except.error e, h) := rfl

theorem lookup_set_self (h : Heap) (a : Nat) (o : Obj) :
    (h.set a o).lookup a = some o := by
  simp [Heap.set, Heap.lookup, Heap.lookup.go]

theorem lookup_set_ne (h : Heap) (a b : Nat) (o : Obj) (hne : b ≠ a) :
    (h.set a o).lookup b = h.lookup b := by
  simp [Heap.set, Heap.lookup, Heap.lookup.go, hne]

theorem lookup_alloc_self (h : Heap) (o : Obj) :
    (h.alloc o).2.lookup (h.alloc o).1 = some o := by
  simp [Heap.alloc, Heap.lookup, Heap.lookup.go]

theorem lookup_alloc_ne (h : Heap) (b : Nat) (o : Obj) (hne : b ≠ h.next) :
    (h.alloc o).2.lookup b = h.lookup b := by
  simp [Heap.alloc, Heap.lookup, Heap.lookup.go, hne]

theorem set_preserves_WF (h : Heap) (a : Nat) (o : Obj) (hWF : h.WF) (ha : a < h.next) :
    (h.set a o).WF := by
  unfold Heap.WF Heap.set
  intro p hp
  rcases List.mem_cons.mp hp with h1 | h1
  · rw [h1]
    exact ha
  · exact hWF p h1

theorem alloc_preserves_WF (h : Heap) (o : Obj) (hWF : h.WF) :
    (h.alloc o).2.WF := by
  unfold Heap.WF Heap.alloc
  intro p hp
  rcases List.mem_cons.mp hp with h1 | h1
  · rw [h1]
    exact Nat.lt_succ_self h.next
  · exact Nat.lt_succ_of_lt (hWF p h1)

/-! ## Association-list lemmas -/

theorem alookup_aset_self (k : String) (v : α) (l : List (String × α)) :
    alookup k (aset k v l) = some v := by
  induction l with
  | nil => simp [aset, alookup]
  | cons p rest ih =>
      by_cases hk : k = p.1
      · simp [aset, alookup, hk]
      · simp [aset, alookup, hk, ih]

theorem alookup_aset_ne (k k₂ : String) (v : α) (l : List (String × α)) (hne : k₂ ≠ k) :
    alookup k₂ (aset k v l) = alookup k₂ l := by
  induction l with
  | nil => simp [aset, alookup, hne]
  | cons p rest ih =>
      by_cases hk : k = p.1
      · subst hk
        simp [aset, alookup, hne]
      · by_cases hk₂ : k₂ = p.1
        · simp [aset, alookup, hk, hk₂]
        · simp [aset, alookup, hk, hk₂, ih]

/-! ## Symbolic runs of the document constructor and view operations -/

/-- The heap produced by `Cas.__init__` run on `h`: the fresh `_sofas` and
`_views` dictionaries, the two generators (consumed once each by
`_add_view`), and the initial view's sofa and view objects. -/
def casNewHeap (h : Heap) : Heap :=
  { cells := (h.next, Obj.dict [("_InitialView", h.next + 4)]) ::
             (h.next + 1, Obj.dict [("_InitialView", h.next + 5)]) ::
             (h.next + 5, Obj.view { sofa := h.next + 4 }) ::
             (h.next + 4, Obj.sofa { sofaNum := 1, xmiID := 1, sofaID := "_InitialView" }) ::
             (h.next + 3, Obj.gen 2) ::
             (h.next + 2, Obj.gen 2) ::
             (h.next + 3, Obj.gen 1) ::
             (h.next + 2, Obj.gen 1) ::
             (h.next + 1, Obj.dict []) ::
             (h.next, Obj.dict []) :: h.cells,
    next := h.next + 6 }

theorem casNew_run (ts : TypeSystem) (h : Heap) :
    casNew ts h =
      (Except.ok { ts := ts, viewsRef := h.next + 1, sofasRef := h.next,
                   xmiGenRef := h.next + 2, sofaGenRef := h.next + 3,
                   currentView := h.next + 5 }, casNewHeap h) := by
  simp [casNew, casAddView, generateId, allocObj, writeObj, readDict, readGen, readObj,
        Heap.alloc, Heap.set, Heap.lookup, Heap.lookup.go, bindApply, pureApply,
        alookup, aset, casNewHeap, Nat.add_assoc]

theorem lookup_casNewHeap_old (h : Heap) (a : Nat) (ha : a < h.next) :
    (casNewHeap h).lookup a = h.lookup a := by
  have h0 : a ≠ h.next := by omega
  have h1 : a ≠ h.next + 1 := by omega
  have h2 : a ≠ h.next + 2 := by omega
  have h3 : a ≠ h.next + 3 := by omega
  have h4 : a ≠ h.next + 4 := by omega
  have h5 : a ≠ h.next + 5 := by omega
  simp [casNewHeap, Heap.lookup, Heap.lookup.go, h0, h1, h2, h3, h4, h5]

theorem casNewHeap_WF (h : Heap) (hWF : h.WF) : (casNewHeap h).WF := by
  unfold Heap.WF casNewHeap
  intro p hp
  simp only [List.mem_cons] at hp
  have hnext : ∀ q ∈ h.cells, q.1 < h.next + 6 := by
    intro q hq
    have := hWF q hq
    omega
  rcases hp with h1 | h1 | h1 | h1 | h1 | h1 | h1 | h1 | h1 | h1 | h1
  all_goals first
    | exact hnext p h1
    | (rw [h1]; simp)

/-- `Cas._copy` returns an attribute-for-attribute alias of the original
document (the freshly constructed `Cas` only leaves garbage cells). -/
theorem casCopy_run (c : CasObj) (h : Heap) :
    casCopy c h = (Except.ok c, casNewHeap h) := by
  cases c
  simp [casCopy, bindApply, pureApply, casNew_run]

theorem getView_run (h : Heap) (c : CasObj) (name : String) (vm : List (String × Nat))
    (va : Nat) (hv : h.lookup c.viewsRef = some (Obj.dict vm))
    (ha : alookup name vm = some va) :
    getView c name h = (Except.ok { c with currentView := va }, casNewHeap h) := by
  simp [getView, readDict, readObj, bindApply, pureApply, hv, ha, casCopy_run]

theorem getView_err (h : Heap) (c : CasObj) (name : String) (vm : List (String × Nat))
    (hv : h.lookup c.viewsRef = some (Obj.dict vm)) (ha : alookup name vm = none) :
    getView c name h = (Except.error (Err.viewNotFound name), h) := by
  simp [getView, readDict, readObj, bindApply, pureApply, throwEApply, hv, ha]

theorem lookupGo_some_key (a : Nat) (o : Obj) :
    ∀ cs : List (Nat × Obj), Heap.lookup.go a cs = some o → ∃ p ∈ cs, p.1 = a := by
  intro cs
  induction cs with
  | nil => intro hgo; simp [Heap.lookup.go] at hgo
  | cons q rest ih =>
      intro hgo
      by_cases hq : a = q.1
      · exact ⟨q, List.mem_cons_self q rest, hq.symm⟩
      · rw [Heap.lookup.go] at hgo
        simp only [hq, if_false] at hgo
        obtain ⟨p, hp, hpa⟩ := ih hgo
        exact ⟨p, List.mem_cons_of_mem q hp, hpa⟩

theorem lookup_some_lt (h : Heap) (a : Nat) (o : Obj) (hWF : h.WF)
    (hl : h.lookup a = some o) : a < h.next := by
  obtain ⟨p, hp, hpa⟩ := lookupGo_some_key a o h.cells hl
  have := hWF p hp
  omega

/-- The empty heap. -/
def heapNil : Heap := { cells := [], next := 0 }

/-- The document handle produced by `Cas()` on the empty heap (with the
empty type system), used by the witnesses below. -/
def casD : CasObj :=
  { ts := {}, viewsRef := 1, sofasRef := 0, xmiGenRef := 2, sofaGenRef := 3, currentView := 5 }

/-- The heap produced by `Cas()` on the empty heap. -/
def heapD : Heap := casNewHeap heapNil

/-- Claim C6.  `Cas.get_view` on a registered name returns a handle that
shares the view mapping, the sofa mapping and both identifier allocators
with the original document (the same attribute references), differing only
in which view is current; the call leaves every existing cell of the
document state unchanged (the fresh `Cas` built by `_copy` only adds
garbage cells at fresh addresses); and every shared-state observation —
registered view names, any view's index bucket, the next identifier, the
next sofa number, any view's sofa — agrees between the two handles in any
heap whatsoever, so a mutation performed through either handle is
observable through the other. -/
theorem c6_get_view_shares_state (h : Heap) (c : CasObj) (name : String)
    (vm : List (String × Nat)) (va : Nat)
    (hv : h.lookup c.viewsRef = some (Obj.dict vm))
    (ha : alookup name vm = some va) :
    getView c name h = (Except.ok { c with currentView := va }, casNewHeap h)
    ∧ ({ c with currentView := va } : CasObj).ts = c.ts
    ∧ ({ c with currentView := va } : CasObj).viewsRef = c.viewsRef
    ∧ ({ c with currentView := va } : CasObj).sofasRef = c.sofasRef
    ∧ ({ c with currentView := va } : CasObj).xmiGenRef = c.xmiGenRef
    ∧ ({ c with currentView := va } : CasObj).sofaGenRef = c.sofaGenRef
    ∧ ({ c with currentView := va } : CasObj).currentView = va
    ∧ (∀ a, a < h.next → (casNewHeap h).lookup a = h.lookup a)
    ∧ (∀ h₂, casViewNames h₂ { c with currentView := va } = casViewNames h₂ c)
    ∧ (∀ h₂ n tn, casViewIndex h₂ { c with currentView := va } n tn = casViewIndex h₂ c n tn)
    ∧ (∀ h₂, nextXmiId h₂ { c with currentView := va } = nextXmiId h₂ c)
    ∧ (∀ h₂, nextSofaNum h₂ { c with currentView := va } = nextSofaNum h₂ c)
    ∧ (∀ h₂ n, sofaOfView h₂ { c with currentView := va } n = sofaOfView h₂ c n) := by
  refine ⟨getView_run h c name vm va hv ha, rfl, rfl, rfl, rfl, rfl, rfl,
          fun a haLt => lookup_casNewHeap_old h a haLt,
          fun h₂ => rfl, fun h₂ n tn => rfl, fun h₂ => rfl, fun h₂ => rfl, fun h₂ n => rfl⟩

/-- Witness for C6 on the freshly constructed document. -/
theorem c6_witness :
    (heapD.lookup casD.viewsRef = some (Obj.dict [("_InitialView", 5)]))
    ∧ (alookup "_InitialView" [("_InitialView", 5)] = some 5)
    ∧ getView casD "_InitialView" heapD = (Except.ok casD, casNewHeap heapD) := by
  have hv : heapD.lookup casD.viewsRef = some (Obj.dict [("_InitialView", 5)]) := by
    simp [heapD, heapNil, casD, casNewHeap, Heap.lookup, Heap.lookup.go]
  have ha : alookup "_InitialView" [("_InitialView", 5)] = some 5 := by
    simp [alookup]
  have hmain := c6_get_view_shares_state heapD casD "_InitialView" [("_InitialView", 5)] 5 hv ha
  exact ⟨hv, ha, hmain.1⟩

/-! ## Symbolic run of `Cas._add_view` and `Cas.create_view` -/

/-- A structurally well-formed document state: the four attribute
references point at objects of the expected kinds and are pairwise
distinct, and the heap is well formed. -/
structure DocWF (h : Heap) (c : CasObj) (vm sm : List (String × Nat)) (n m : Int) : Prop where
  hWF : h.WF
  hv : h.lookup c.viewsRef = some (Obj.dict vm)
  hs : h.lookup c.sofasRef = some (Obj.dict sm)
  hx : h.lookup c.xmiGenRef = some (Obj.gen n)
  hg : h.lookup c.sofaGenRef = some (Obj.gen m)
  dvs : c.viewsRef ≠ c.sofasRef
  dvx : c.viewsRef ≠ c.xmiGenRef
  dvg : c.viewsRef ≠ c.sofaGenRef
  dsx : c.sofasRef ≠ c.xmiGenRef
  dsg : c.sofasRef ≠ c.sofaGenRef
  dxg : c.xmiGenRef ≠ c.sofaGenRef

/-- The heap produced by a successful `Cas._add_view` with
generator-allocated identifiers. -/
def casAddViewHeap (h : Heap) (c : CasObj) (name : String)
    (vm sm : List (String × Nat)) (n m : Int) : Heap :=
  { cells := (c.sofasRef, Obj.dict (aset name h.next sm)) ::
             (c.viewsRef, Obj.dict (aset name (h.next + 1) vm)) ::
             (h.next + 1, Obj.view { sofa := h.next }) ::
             (h.next, Obj.sofa { sofaNum := m, xmiID := n, sofaID := name }) ::
             (c.sofaGenRef, Obj.gen (m + 1)) ::
             (c.xmiGenRef, Obj.gen (n + 1)) :: h.cells,
    next := h.next + 2 }

theorem casAddView_run (h : Heap) (c : CasObj) (name : String)
    (vm sm : List (String × Nat)) (n m : Int) (hd : DocWF h c vm sm n m) :
    casAddView c name none none h = (Except.ok (), casAddViewHeap h c name vm sm n m) := by
  have hvLt : c.viewsRef < h.next := lookup_some_lt h c.viewsRef _ hd.hWF hd.hv
  have hsLt : c.sofasRef < h.next := lookup_some_lt h c.sofasRef _ hd.hWF hd.hs
  have hv0 : c.viewsRef ≠ h.next := by omega
  have hv1 : c.viewsRef ≠ h.next + 1 := by omega
  have hs0 : c.sofasRef ≠ h.next := by omega
  have hs1 : c.sofasRef ≠ h.next + 1 := by omega
  have hv' : Heap.lookup.go c.viewsRef h.cells = some (Obj.dict vm) := hd.hv
  have hs' : Heap.lookup.go c.sofasRef h.cells = some (Obj.dict sm) := hd.hs
  have hx' : Heap.lookup.go c.xmiGenRef h.cells = some (Obj.gen n) := hd.hx
  have hg' : Heap.lookup.go c.sofaGenRef h.cells = some (Obj.gen m) := hd.hg
  simp [casAddView, generateId, allocObj, writeObj, readDict, readGen, readObj,
        bindApply, pureApply, Heap.alloc, Heap.set, Heap.lookup, Heap.lookup.go,
        casAddViewHeap, hv', hs', hx', hg',
        hd.dvs, hd.dvx, hd.dvg, hd.dsx, hd.dsg, hd.dxg,
        hd.dvs.symm, hd.dvx.symm, hd.dvg.symm, hd.dsx.symm, hd.dsg.symm, hd.dxg.symm,
        hv0, hv1, hs0, hs1]

theorem lookup_casAddViewHeap_views (h : Heap) (c : CasObj) (name : String)
    (vm sm : List (String × Nat)) (n m : Int) (hd : DocWF h c vm sm n m) :
    (casAddViewHeap h c name vm sm n m).lookup c.viewsRef =
      some (Obj.dict (aset name (h.next + 1) vm)) := by
  simp [casAddViewHeap, Heap.lookup, Heap.lookup.go, hd.dvs, hd.dvs.symm]

/-- `Cas.create_view` on a fresh name succeeds and returns the handle
focused on the new view. -/
theorem createView_run (h : Heap) (c : CasObj) (name : String)
    (vm sm : List (String × Nat)) (n m : Int) (hd : DocWF h c vm sm n m)
    (hnew : alookup name vm = none) :
    createView c name none none h =
      (Except.ok { c with currentView := h.next + 1 },
       casNewHeap (casAddViewHeap h c name vm sm n m)) := by
  have hstep := casAddView_run h c name vm sm n m hd
  have hlook := lookup_casAddViewHeap_views h c name vm sm n m hd
  have hget := getView_run (casAddViewHeap h c name vm sm n m) c name
    (aset name (h.next + 1) vm) (h.next + 1) hlook (alookup_aset_self name (h.next + 1) vm)
  simp [createView, readDict, readObj, bindApply, pureApply, hd.hv, hnew, hstep, hget]

/-- `Cas.create_view` on a registered name raises the duplicate-view error
without touching the heap. -/
theorem createView_dup (h : Heap) (c : CasObj) (name : String)
    (vm : List (String × Nat)) (hv : h.lookup c.viewsRef = some (Obj.dict vm))
    (hdup : (alookup name vm).isSome = true) :
    createView c name none none h = (Except.error (Err.duplicateView name), h) := by
  simp [createView, readDict, readObj, bindApply, pureApply, throwEApply, hv, hdup]

/-- Claim C8.  `create_view` fails with the duplicate-view error exactly
when the name is registered, `get_view` fails with the view-not-found
error exactly when it is not, and both failures return with the heap — and
so the view mapping, sofa mapping, both allocators, and the current view —
exactly as it was. -/
theorem c8_view_error_cases (h : Heap) (c : CasObj) (name : String)
    (vm sm : List (String × Nat)) (n m : Int) (hd : DocWF h c vm sm n m) :
    ((∃ h₂, createView c name none none h = (Except.error (Err.duplicateView name), h₂)) ↔
        (alookup name vm).isSome = true)
    ∧ ((alookup name vm).isSome = true →
        createView c name none none h = (Except.error (Err.duplicateView name), h))
    ∧ ((∃ h₂, getView c name h = (Except.error (Err.viewNotFound name), h₂)) ↔
        alookup name vm = none)
    ∧ (alookup name vm = none →
        getView c name h = (Except.error (Err.viewNotFound name), h)) := by
  refine ⟨⟨?_, ?_⟩, fun hdup => createView_dup h c name vm hd.hv hdup, ⟨?_, ?_⟩,
          fun hnone => getView_err h c name vm hd.hv hnone⟩
  · rintro ⟨h₂, herr⟩
    by_contra hnot
    have hnone : alookup name vm = none := by
      cases halo : alookup name vm with
      | none => rfl
      | some va => rw [halo] at hnot; simp at hnot
    have hok := createView_run h c name vm sm n m hd hnone
    rw [hok] at herr
    simp at herr
  · intro hdup
    exact ⟨h, createView_dup h c name vm hd.hv hdup⟩
  · rintro ⟨h₂, herr⟩
    cases halo : alookup name vm with
    | none => rfl
    | some va =>
        have hok := getView_run h c name vm va hd.hv halo
        rw [hok] at herr
        simp at herr
  · intro hnone
    exact ⟨h, getView_err h c name vm hd.hv hnone⟩

/-- Witness for C8 on the freshly constructed document: creating a second
`_InitialView` fails, creating `v2` succeeds, getting `missing` fails. -/
theorem c8_witness :
    (∃ vmsm : (List (String × Nat)) × (List (String × Nat)),
      DocWF heapD casD vmsm.1 vmsm.2 2 2)
    ∧ createView casD "_InitialView" none none heapD =
        (Except.error (Err.duplicateView "_InitialView"), heapD)
    ∧ getView casD "missing" heapD = (Except.error (Err.viewNotFound "missing"), heapD) := by
  have hWF : Heap.WF heapD := casNewHeap_WF heapNil (by intro p hp; simp [heapNil] at hp)
  have hd : DocWF heapD casD [("_InitialView", 5)] [("_InitialView", 4)] 2 2 := by
    refine ⟨hWF, ?_, ?_, ?_, ?_, ?_, ?_, ?_, ?_, ?_, ?_⟩ <;>
      simp [heapD, heapNil, casD, casNewHeap, Heap.lookup, Heap.lookup.go]
  have hmain := c8_view_error_cases heapD casD "_InitialView"
    [("_InitialView", 5)] [("_InitialView", 4)] 2 2 hd
  have hmain2 := c8_view_error_cases heapD casD "missing"
    [("_InitialView", 5)] [("_InitialView", 4)] 2 2 hd
  refine ⟨⟨([("_InitialView", 5)], [("_InitialView", 4)]), hd⟩, ?_, ?_⟩
  · exact hmain.2.1 (by simp [alookup])
  · exact hmain2.2.2.2 (by simp [alookup])

/-! ## The sorted index: symbolic runs of `SortedKeyList.add` -/

/-- The sort key of the object stored at `a`, as a pure reading of the
heap (`none` when the cell is not a feature structure or its key is
unorderable). -/
def keyAt (h : Heap) (a : Nat) : Option (Int × Int) :=
  match h.lookup a with
  | some (Obj.fs f) => sortKeyOf f
  | _ => none

/-- `sortKeyM` only reads. -/
theorem sortKeyM_run (h : Heap) (a : Nat) (k : Int × Int) (hk : keyAt h a = some k) :
    sortKeyM a h = (Except.ok k, h) := by
  unfold keyAt at hk
  cases hl : h.lookup a with
  | none => rw [hl] at hk; simp at hk
  | some o =>
      rw [hl] at hk
      cases o with
      | fs f =>
          have hk₂ : sortKeyOf f = some k := hk
          simp [sortKeyM, readFS, readObj, bindApply, pureApply, hl, hk₂]
      | dict d => simp at hk
      | gen n => simp at hk
      | view v => simp at hk
      | sofa s => simp at hk
      | sdict d => simp at hk

/-- The pure mirror of `insortKey` over a fixed key assignment. -/
def insortPure (kf : Nat → Option (Int × Int)) (x : Nat) (k : Int × Int) :
    List Nat → Option (List Nat)
  | [] => some [x]
  | y :: ys =>
      match kf y with
      | some ky =>
          if pairLt k ky then some (x :: y :: ys)
          else (insortPure kf x k ys).map (y :: ·)
      | none => none

theorem insortKey_run (h : Heap) (x : Nat) (k : Int × Int) :
    ∀ l : List Nat, (∀ b ∈ l, (keyAt h b).isSome) →
    ∃ l₂, insortPure (keyAt h) x k l = some l₂ ∧ insortKey x k l h = (Except.ok l₂, h) := by
  intro l
  induction l with
  | nil => intro _; exact ⟨[x], rfl, rfl⟩
  | cons y ys ih =>
      intro hl
      have hy : (keyAt h y).isSome := hl y (List.mem_cons_self y ys)
      obtain ⟨ky, hky⟩ := Option.isSome_iff_exists.mp hy
      obtain ⟨l₂, hpure, hrun⟩ := ih (fun b hb => hl b (List.mem_cons_of_mem y hb))
      by_cases hlt : pairLt k ky = true
      · refine ⟨x :: y :: ys, ?_, ?_⟩
        · simp [insortPure, hky, hlt]
        · simp [insortKey, bindApply, pureApply, sortKeyM_run h y ky hky, hlt]
      · refine ⟨y :: l₂, ?_, ?_⟩
        · simp [insortPure, hky, hlt, hpure]
        · simp [insortKey, bindApply, pureApply, sortKeyM_run h y ky hky, hlt, hrun]

theorem insortPure_perm (kf : Nat → Option (Int × Int)) (x : Nat) (k : Int × Int) :
    ∀ l l₂, insortPure kf x k l = some l₂ → l₂.Perm (x :: l) := by
  intro l
  induction l with
  | nil =>
      intro l₂ hp
      have h₂ : [x] = l₂ := Option.some.inj hp
      rw [← h₂]
  | cons y ys ih =>
      intro l₂ hp
      unfold insortPure at hp
      cases hky : kf y with
      | none => rw [hky] at hp; simp at hp
      | some ky =>
          rw [hky] at hp
          have hp₂ : (if pairLt k ky = true then some (x :: y :: ys)
              else Option.map (fun t => y :: t) (insortPure kf x k ys)) = some l₂ := hp
          by_cases hlt : pairLt k ky = true
          · rw [if_pos hlt] at hp₂
            have h₂ : x :: y :: ys = l₂ := Option.some.inj hp₂
            rw [← h₂]
          · rw [if_neg hlt] at hp₂
            rcases Option.map_eq_some'.mp hp₂ with ⟨l₃, hl₃, hcons⟩
            rw [← hcons]
            exact List.Perm.trans (List.Perm.cons y (ih l₃ hl₃)) (List.Perm.swap x y ys)

/-- The updated feature structure produced by `Cas.add_annotation`: the
identifier is stored, and when the structure declares a `sofa` slot the
current view's sofa reference is attached. -/
def fsAfterAdd (f : FSObj) (xmi : Option Int) (sofaAddr : Nat) : FSObj :=
  if f.slots.contains "sofa" then
    { f with xmiID := xmi, attrs := aset "sofa" (Value.vref sofaAddr) f.attrs }
  else { f with xmiID := xmi }

theorem sortKeyOf_fsAfterAdd (f : FSObj) (xmi : Option Int) (sofaAddr : Nat) :
    sortKeyOf (fsAfterAdd f xmi sofaAddr) = sortKeyOf f := by
  unfold fsAfterAdd
  cases hs : f.slots.contains "sofa"
  · rw [if_neg (by simp)]
    rfl
  · rw [if_pos rfl]
    simp [sortKeyOf, alookup_aset_ne "sofa" "begin" _ _ (by simp),
          alookup_aset_ne "sofa" "end" _ _ (by simp)]

/-- C7: `add_annotation(fs)` allocates a fresh identifier for `fs`,
overwriting any identifier it already carried — unless the
keep-existing-identifier mode is requested, in which case the carried
identifier is preserved and the generator is not consumed.  It attaches the
current view's Sofa to `fs` when `fs` exposes a sofa-reference field,
inserts `fs` into the current view's index (the bucket of its type becomes
the old bucket plus `fs`), and changes no other document state: every other
heap cell is untouched and no allocation happens. -/
theorem c7_add_annotation_contract
    (h : Heap) (c : CasObj) (aNat : Nat) (f : FSObj) (v : ViewObj) (n : Int) (k : Int × Int)
    (hf : h.lookup aNat = some (Obj.fs f))
    (hx : h.lookup c.xmiGenRef = some (Obj.gen n))
    (hv : h.lookup c.currentView = some (Obj.view v))
    (dax : aNat ≠ c.xmiGenRef) (dav : aNat ≠ c.currentView) (dxv : c.xmiGenRef ≠ c.currentView)
    (hk : sortKeyOf f = some k)
    (hbkt : ∀ b ∈ (alookup f.typeName v.indices).getD [],
        (keyAt h b).isSome = true ∧ b ≠ aNat ∧ b ≠ c.xmiGenRef ∧ b ≠ c.currentView) :
    (∃ h₂ bucket₂,
        addAnnot c aNat false h = (Except.ok (), h₂) ∧
        bucket₂.Perm (aNat :: (alookup f.typeName v.indices).getD []) ∧
        h₂.lookup aNat = some (Obj.fs (fsAfterAdd f (some n) v.sofa)) ∧
        h₂.lookup c.xmiGenRef = some (Obj.gen (n + 1)) ∧
        h₂.lookup c.currentView =
          some (Obj.view { v with indices := aset f.typeName bucket₂ v.indices }) ∧
        (∀ b, b ≠ aNat → b ≠ c.xmiGenRef → b ≠ c.currentView → h₂.lookup b = h.lookup b) ∧
        h₂.next = h.next) ∧
    (∃ h₃ bucket₃,
        addAnnot c aNat true h = (Except.ok (), h₃) ∧
        bucket₃.Perm (aNat :: (alookup f.typeName v.indices).getD []) ∧
        h₃.lookup aNat = some (Obj.fs (fsAfterAdd f f.xmiID v.sofa)) ∧
        h₃.lookup c.xmiGenRef = some (Obj.gen n) ∧
        h₃.lookup c.currentView =
          some (Obj.view { v with indices := aset f.typeName bucket₃ v.indices }) ∧
        (∀ b, b ≠ aNat → b ≠ c.xmiGenRef → b ≠ c.currentView → h₃.lookup b = h.lookup b) ∧
        h₃.next = h.next) := by
  have hf' : Heap.lookup.go aNat h.cells = some (Obj.fs f) := hf
  have hx' : Heap.lookup.go c.xmiGenRef h.cells = some (Obj.gen n) := hx
  have hv' : Heap.lookup.go c.currentView h.cells = some (Obj.view v) := hv
  have dxa : c.xmiGenRef ≠ aNat := Ne.symm dax
  have dca : c.currentView ≠ aNat := Ne.symm dav
  have dcx : c.currentView ≠ c.xmiGenRef := Ne.symm dxv
  constructor
  · cases hs : f.slots.contains "sofa" with
    | true =>
        have hs₂ : "sofa" ∈ f.slots := by simpa using hs
        have hkA : sortKeyOf ({ typeName := f.typeName, xmiID := some n, slots := f.slots, attrs := aset "sofa" (Value.vref v.sofa) f.attrs } : FSObj) = some k := by
          rw [← hk]
          simp [sortKeyOf, alookup_aset_ne "sofa" "begin" _ _ (by simp), alookup_aset_ne "sofa" "end" _ _ (by simp)]
        obtain ⟨l₂, hpure, hrun⟩ := insortKey_run { cells := (aNat, Obj.fs { typeName := f.typeName, xmiID := some n, slots := f.slots, attrs := aset "sofa" (Value.vref v.sofa) f.attrs }) :: (aNat, Obj.fs { typeName := f.typeName, xmiID := some n, slots := f.slots, attrs := f.attrs }) :: (c.xmiGenRef, Obj.gen (n + 1)) :: h.cells, next := h.next } aNat k ((alookup f.typeName v.indices).getD []) (by intro b hb; obtain ⟨hkb, hba, hbx, hbc⟩ := hbkt b hb; simpa [keyAt, Heap.lookup, Heap.lookup.go, hba, hbx] using hkb)
        have hsk := sortKeyM_run { cells := (aNat, Obj.fs { typeName := f.typeName, xmiID := some n, slots := f.slots, attrs := aset "sofa" (Value.vref v.sofa) f.attrs }) :: (aNat, Obj.fs { typeName := f.typeName, xmiID := some n, slots := f.slots, attrs := f.attrs }) :: (c.xmiGenRef, Obj.gen (n + 1)) :: h.cells, next := h.next } aNat k (by simp [keyAt, Heap.lookup, Heap.lookup.go, hkA])
        have hmain : addAnnot c aNat false h = (Except.ok (), { cells := (c.currentView, Obj.view { v with indices := aset f.typeName l₂ v.indices }) :: (aNat, Obj.fs { typeName := f.typeName, xmiID := some n, slots := f.slots, attrs := aset "sofa" (Value.vref v.sofa) f.attrs }) :: (aNat, Obj.fs { typeName := f.typeName, xmiID := some n, slots := f.slots, attrs := f.attrs }) :: (c.xmiGenRef, Obj.gen (n + 1)) :: h.cells, next := h.next }) := by
          simp [addAnnot, generateId, readGen, readFS, readView, readObj, writeObj, getSofaNat, addAnnotToIndex, bindApply, pureApply, Heap.set, Heap.lookup, Heap.lookup.go, hx', hf', hv', dax, dav, dxa, dca, dcx, hs₂, hsk, hrun]
        refine ⟨_, l₂, hmain, insortPure_perm _ _ _ _ _ hpure, ?_, ?_, ?_, ?_, rfl⟩
        · simp [Heap.lookup, Heap.lookup.go, dav, fsAfterAdd, hs₂]
        · simp [Heap.lookup, Heap.lookup.go, dxv, dxa]
        · simp [Heap.lookup, Heap.lookup.go]
        · intro b hba hbx hbc
          simp [Heap.lookup, Heap.lookup.go, hba, hbx, hbc]
    | false =>
        have hs₂ : "sofa" ∉ f.slots := by simpa using hs
        have hkA : sortKeyOf ({ typeName := f.typeName, xmiID := some n, slots := f.slots, attrs := f.attrs } : FSObj) = some k := hk
        obtain ⟨l₂, hpure, hrun⟩ := insortKey_run { cells := (aNat, Obj.fs { typeName := f.typeName, xmiID := some n, slots := f.slots, attrs := f.attrs }) :: (c.xmiGenRef, Obj.gen (n + 1)) :: h.cells, next := h.next } aNat k ((alookup f.typeName v.indices).getD []) (by intro b hb; obtain ⟨hkb, hba, hbx, hbc⟩ := hbkt b hb; simpa [keyAt, Heap.lookup, Heap.lookup.go, hba, hbx] using hkb)
        have hsk := sortKeyM_run { cells := (aNat, Obj.fs { typeName := f.typeName, xmiID := some n, slots := f.slots, attrs := f.attrs }) :: (c.xmiGenRef, Obj.gen (n + 1)) :: h.cells, next := h.next } aNat k (by simp [keyAt, Heap.lookup, Heap.lookup.go, hkA])
        have hmain : addAnnot c aNat false h = (Except.ok (), { cells := (c.currentView, Obj.view { v with indices := aset f.typeName l₂ v.indices }) :: (aNat, Obj.fs { typeName := f.typeName, xmiID := some n, slots := f.slots, attrs := f.attrs }) :: (c.xmiGenRef, Obj.gen (n + 1)) :: h.cells, next := h.next }) := by
          simp [addAnnot, generateId, readGen, readFS, readView, readObj, writeObj, getSofaNat, addAnnotToIndex, bindApply, pureApply, Heap.set, Heap.lookup, Heap.lookup.go, hx', hf', hv', dax, dav, dxa, dca, dcx, hs₂, hsk, hrun]
        refine ⟨_, l₂, hmain, insortPure_perm _ _ _ _ _ hpure, ?_, ?_, ?_, ?_, rfl⟩
        · simp [Heap.lookup, Heap.lookup.go, dav, fsAfterAdd, hs₂]
        · simp [Heap.lookup, Heap.lookup.go, dxv, dxa]
        · simp [Heap.lookup, Heap.lookup.go]
        · intro b hba hbx hbc
          simp [Heap.lookup, Heap.lookup.go, hba, hbx, hbc]
  · cases hs : f.slots.contains "sofa" with
    | true =>
        have hs₂ : "sofa" ∈ f.slots := by simpa using hs
        have hkA : sortKeyOf ({ typeName := f.typeName, xmiID := f.xmiID, slots := f.slots, attrs := aset "sofa" (Value.vref v.sofa) f.attrs } : FSObj) = some k := by
          rw [← hk]
          simp [sortKeyOf, alookup_aset_ne "sofa" "begin" _ _ (by simp), alookup_aset_ne "sofa" "end" _ _ (by simp)]
        obtain ⟨l₂, hpure, hrun⟩ := insortKey_run { cells := (aNat, Obj.fs { typeName := f.typeName, xmiID := f.xmiID, slots := f.slots, attrs := aset "sofa" (Value.vref v.sofa) f.attrs }) :: h.cells, next := h.next } aNat k ((alookup f.typeName v.indices).getD []) (by intro b hb; obtain ⟨hkb, hba, hbx, hbc⟩ := hbkt b hb; simpa [keyAt, Heap.lookup, Heap.lookup.go, hba] using hkb)
        have hsk := sortKeyM_run { cells := (aNat, Obj.fs { typeName := f.typeName, xmiID := f.xmiID, slots := f.slots, attrs := aset "sofa" (Value.vref v.sofa) f.attrs }) :: h.cells, next := h.next } aNat k (by simp [keyAt, Heap.lookup, Heap.lookup.go, hkA])
        have hmain : addAnnot c aNat true h = (Except.ok (), { cells := (c.currentView, Obj.view { v with indices := aset f.typeName l₂ v.indices }) :: (aNat, Obj.fs { typeName := f.typeName, xmiID := f.xmiID, slots := f.slots, attrs := aset "sofa" (Value.vref v.sofa) f.attrs }) :: h.cells, next := h.next }) := by
          simp [addAnnot, readFS, readView, readObj, writeObj, getSofaNat, addAnnotToIndex, bindApply, pureApply, Heap.set, Heap.lookup, Heap.lookup.go, hf', hv', dav, dca, hs₂, hsk, hrun]
        refine ⟨_, l₂, hmain, insortPure_perm _ _ _ _ _ hpure, ?_, ?_, ?_, ?_, rfl⟩
        · simp [Heap.lookup, Heap.lookup.go, dav, fsAfterAdd, hs₂]
        · simp [Heap.lookup, Heap.lookup.go, dxv, dxa, hx']
        · simp [Heap.lookup, Heap.lookup.go]
        · intro b hba hbx hbc
          simp [Heap.lookup, Heap.lookup.go, hba, hbc]
    | false =>
        have hs₂ : "sofa" ∉ f.slots := by simpa using hs
        obtain ⟨l₂, hpure, hrun⟩ := insortKey_run h aNat k ((alookup f.typeName v.indices).getD []) (by intro b hb; obtain ⟨hkb, hba, hbx, hbc⟩ := hbkt b hb; exact hkb)
        have hsk := sortKeyM_run h aNat k (by simp [keyAt, Heap.lookup, hf', hk])
        have hmain : addAnnot c aNat true h = (Except.ok (), { cells := (c.currentView, Obj.view { v with indices := aset f.typeName l₂ v.indices }) :: h.cells, next := h.next }) := by
          simp [addAnnot, readFS, readView, readObj, writeObj, getSofaNat, addAnnotToIndex, bindApply, pureApply, Heap.set, Heap.lookup, Heap.lookup.go, hf', hv', dav, dca, hs₂, hsk, hrun]
        refine ⟨_, l₂, hmain, insortPure_perm _ _ _ _ _ hpure, ?_, ?_, ?_, ?_, rfl⟩
        · simp [Heap.lookup, Heap.lookup.go, dav, fsAfterAdd, hs₂, hf']
        · simp [Heap.lookup, Heap.lookup.go, dxv, hx']
        · simp [Heap.lookup, Heap.lookup.go]
        · intro b hba hbx hbc
          simp [Heap.lookup, Heap.lookup.go, hbc]


/-- A concrete annotation carrying a stale identifier, stored at the fresh
address 6 of the demo document. -/
def fsW : FSObj :=
  { typeName := "x.Anno", xmiID := some 99, slots := ["begin", "end", "sofa"],
    attrs := [("begin", Value.vint 0), ("end", Value.vint 2)] }

def heapW : Heap := heapD.set 6 (Obj.fs fsW)

theorem c7_witness :
    ∃ (h₂ : Heap) (bucket₂ : List Nat),
      addAnnot casD 6 false heapW = (Except.ok (), h₂) ∧
      bucket₂.Perm [6] ∧
      h₂.lookup 6 = some (Obj.fs (fsAfterAdd fsW (some 2) 4)) ∧
      h₂.lookup 2 = some (Obj.gen 3) := by
  obtain ⟨⟨h₂, b₂, hrun, hperm, ha, hxg, hcv, hother, hnext⟩, _⟩ :=
    c7_add_annotation_contract heapW casD 6 fsW { sofa := 4 } 2 (0, 2)
      rfl rfl rfl (by decide) (by decide) (by decide) rfl
      (by simp [fsW, alookup])
  exact ⟨h₂, b₂, hrun, by simpa [fsW, alookup] using hperm, ha, by simpa using hxg⟩

/-! ## C5: ordering of an index bucket -/

theorem pairLe_of_not_pairLt (a b : Int × Int) (hn : ¬ pairLt a b = true) :
    pairLe b a = true := by
  obtain ⟨a1, a2⟩ := a
  obtain ⟨b1, b2⟩ := b
  simp [pairLt, pairLe] at hn ⊢
  omega

theorem pairLe_of_pairLt (a b : Int × Int) (hlt : pairLt a b = true) :
    pairLe a b = true := by
  obtain ⟨a1, a2⟩ := a
  obtain ⟨b1, b2⟩ := b
  simp [pairLt, pairLe] at hlt ⊢
  omega

theorem pairLt_of_pairLt_of_pairLe (a b d : Int × Int)
    (h1 : pairLt a b = true) (h2 : pairLe b d = true) : pairLt a d = true := by
  obtain ⟨a1, a2⟩ := a
  obtain ⟨b1, b2⟩ := b
  obtain ⟨d1, d2⟩ := d
  simp [pairLt, pairLe] at h1 h2 ⊢
  omega

/-- `a`'s sort key is at most `b`'s, whenever both are defined on heap `h`. -/
def keyLe (h : Heap) (a b : Nat) : Prop :=
  ∀ ka kb, keyAt h a = some ka → keyAt h b = some kb → pairLe ka kb = true

/-- A structure with no `begin`/`end` features: its sort key is the
sentinel. -/
def fsNoPos : FSObj := { typeName := "x.Anno" }

/-- A positional structure whose `begin` exceeds `sys.maxsize`. -/
def fsBigBegin : FSObj :=
  { typeName := "x.Anno", slots := ["begin", "end"],
    attrs := [("begin", Value.vint 9223372036854775808), ("end", Value.vint 0)] }

def heapC5 : Heap :=
  { cells := [(5, Obj.view { sofa := 4 }), (6, Obj.fs fsNoPos), (7, Obj.fs fsBigBegin)],
    next := 8 }

/-- C5, counterexample to the original wording: the sentinel key of a
structure without `begin`/`end` features is `sys.maxsize` twice, which is
not maximal over Python integers.  Adding the non-positional structure 6
and then the positional structure 7 — whose `begin` is `2^63`, one past the
sentinel — leaves the bucket `[6, 7]`: a positional structure sorted after
a non-positional one, so "every non-positional structure sorts after all
positional ones" fails (the adjacent-key ordering itself still holds). -/
theorem c5_counterexample :
    sortKeyOf fsNoPos = some (maxsize, maxsize) ∧
    fsNoPos.slots.contains "begin" = false ∧
    sortKeyOf fsBigBegin = some (9223372036854775808, 0) ∧
    fsBigBegin.slots.contains "begin" = true ∧
    maxsize < 9223372036854775808 ∧
    okOf ((addAnnotToIndex 5 6 >>= fun _ => addAnnotToIndex 5 7) heapC5) = some () ∧
    viewBucket ((addAnnotToIndex 5 6 >>= fun _ => addAnnotToIndex 5 7) heapC5).2 5 "x.Anno" =
      some [6, 7] := by
  refine ⟨rfl, rfl, rfl, rfl, by decide, rfl, rfl⟩

/-- C5 (amended): `SortedKeyList.add` keeps an index bucket key-sorted.
Inserting `x` with key `k` into a bucket whose members all have defined
keys and which is pairwise key-ordered splits it as `l₁ ++ l₃`: every
member of `l₁` has key `≤ k`, every member of `l₃` has key `> k`, `x`
lands between them — after all existing entries with equal key, so ties
keep their relative insertion order — and the result is again pairwise
key-ordered.  (The original claim's gloss that every non-positional
structure sorts after all positional ones only holds when positional keys
stay below the `sys.maxsize` sentinel; see the counterexample.) -/
theorem c5_index_bucket_order (h : Heap) (x : Nat) (k : Int × Int) :
    ∀ l : List Nat,
    keyAt h x = some k →
    (∀ b ∈ l, (keyAt h b).isSome = true) →
    List.Pairwise (keyLe h) l →
    ∃ l₁ l₃,
      l = l₁ ++ l₃ ∧
      insortKey x k l h = (Except.ok (l₁ ++ x :: l₃), h) ∧
      (∀ b ∈ l₁, ∀ kb, keyAt h b = some kb → pairLe kb k = true) ∧
      (∀ b ∈ l₃, ∀ kb, keyAt h b = some kb → pairLt k kb = true) ∧
      List.Pairwise (keyLe h) (l₁ ++ x :: l₃) := by
  intro l
  induction l with
  | nil =>
      intro hx _ _
      refine ⟨[], [], rfl, rfl, by simp, by simp, ?_⟩
      simp [List.pairwise_cons]
  | cons y ys ih =>
      intro hx hl hsorted
      have hy : (keyAt h y).isSome = true := hl y (List.mem_cons_self y ys)
      obtain ⟨ky, hky⟩ := Option.isSome_iff_exists.mp hy
      obtain ⟨hhead, htail⟩ := List.pairwise_cons.mp hsorted
      by_cases hlt : pairLt k ky = true
      · refine ⟨[], y :: ys, rfl, ?_, by simp, ?_, ?_⟩
        · simp [insortKey, bindApply, pureApply, sortKeyM_run h y ky hky, hlt]
        · intro b hb kb hkb
          rcases List.mem_cons.mp hb with hb | hb
          · subst hb
            have : kb = ky := by rw [hky] at hkb; exact (Option.some.inj hkb).symm
            rw [this]
            exact hlt
          · have hyb := hhead b hb ky kb hky hkb
            exact pairLt_of_pairLt_of_pairLe k ky kb hlt hyb
        · refine List.pairwise_cons.mpr ⟨?_, hsorted⟩
          intro b hb ka kb hka hkb
          have hk₂ : ka = k := by rw [hx] at hka; exact (Option.some.inj hka).symm
          rw [hk₂]
          rcases List.mem_cons.mp hb with hb | hb
          · subst hb
            have : kb = ky := by rw [hky] at hkb; exact (Option.some.inj hkb).symm
            rw [this]
            exact pairLe_of_pairLt _ _ hlt
          · have hyb := hhead b hb ky kb hky hkb
            exact pairLe_of_pairLt _ _ (pairLt_of_pairLt_of_pairLe k ky kb hlt hyb)
      · obtain ⟨l₁, l₃, heq, hrun, hle, hgt, hpw⟩ :=
          ih hx (fun b hb => hl b (List.mem_cons_of_mem y hb)) htail
        refine ⟨y :: l₁, l₃, by rw [List.cons_append, heq], ?_, ?_, hgt, ?_⟩
        · simp [insortKey, bindApply, pureApply, sortKeyM_run h y ky hky, hlt, hrun]
        · intro b hb kb hkb
          rcases List.mem_cons.mp hb with hb | hb
          · subst hb
            have : kb = ky := by rw [hky] at hkb; exact (Option.some.inj hkb).symm
            rw [this]
            exact pairLe_of_not_pairLt _ _ hlt
          · exact hle b hb kb hkb
        · rw [List.cons_append]
          refine List.pairwise_cons.mpr ⟨?_, hpw⟩
          intro b hb ka kb hka hkb
          have hk₂ : ka = ky := by rw [hky] at hka; exact (Option.some.inj hka).symm
          rw [hk₂]
          rcases List.mem_append.mp hb with hb | hb
          · exact hhead b (heq ▸ List.mem_append.mpr (Or.inl hb)) ky kb hky hkb
          · rcases List.mem_cons.mp hb with hb | hb
            · subst hb
              have : kb = k := by rw [hx] at hkb; exact (Option.some.inj hkb).symm
              rw [this]
              exact pairLe_of_not_pairLt _ _ hlt
            · exact hhead b (heq ▸ List.mem_append.mpr (Or.inr hb)) ky kb hky hkb

def fsKey01 : FSObj :=
  { typeName := "x.Anno", slots := ["begin", "end"],
    attrs := [("begin", Value.vint 0), ("end", Value.vint 1)] }

def fsKey11 : FSObj :=
  { typeName := "x.Anno", slots := ["begin", "end"],
    attrs := [("begin", Value.vint 1), ("end", Value.vint 1)] }

def heapW5 : Heap := { cells := [(6, Obj.fs fsKey01), (8, Obj.fs fsKey11)], next := 9 }

theorem c5_witness :
    ∃ l₁ l₃,
      [6] = l₁ ++ l₃ ∧
      insortKey 8 (1, 1) [6] heapW5 = (Except.ok (l₁ ++ 8 :: l₃), heapW5) ∧
      (∀ b ∈ l₁, ∀ kb, keyAt heapW5 b = some kb → pairLe kb (1, 1) = true) ∧
      (∀ b ∈ l₃, ∀ kb, keyAt heapW5 b = some kb → pairLt (1, 1) kb = true) ∧
      List.Pairwise (keyLe heapW5) (l₁ ++ 8 :: l₃) :=
  c5_index_bucket_order heapW5 8 (1, 1) [6] rfl (by decide) (by simp)

/-! ## C4 and C9: containment selection -/

/-- A successful integer attribute read, from the observed feature value. -/
theorem readIntAttr_of_attr (h : Heap) (a : Nat) (nm : String) (i : Int)
    (hv : fsAttrValue h a nm = some (Value.vint i)) :
    readIntAttr a nm h = (Except.ok i, h) := by
  unfold fsAttrValue at hv
  cases hl : h.lookup a with
  | none => rw [hl] at hv; simp at hv
  | some o =>
      rw [hl] at hv
      cases o with
      | fs f =>
          have hg : f.getattr nm = some (Value.vint i) := hv
          simp [readIntAttr, readFS, readObj, bindApply, pureApply, hl, hg]
      | dict d => simp at hv
      | gen n => simp at hv
      | view v => simp at hv
      | sofa s => simp at hv
      | sdict d => simp at hv

/-- The structure at `a` carries integer `begin` and `end` features. -/
def spans (h : Heap) (a : Nat) : Bool :=
  (match fsAttrValue h a "begin" with | some (Value.vint _) => true | _ => false) &&
  (match fsAttrValue h a "end" with | some (Value.vint _) => true | _ => false)

theorem spans_begin (h : Heap) (a : Nat) (hs : spans h a = true) :
    ∃ b, fsAttrValue h a "begin" = some (Value.vint b) := by
  simp only [spans, Bool.and_eq_true] at hs
  obtain ⟨h1, _⟩ := hs
  cases hfb : fsAttrValue h a "begin" with
  | none => rw [hfb] at h1; simp at h1
  | some val =>
      rw [hfb] at h1
      cases val <;> simp at h1
      rename_i i
      exact ⟨i, rfl⟩

theorem spans_end (h : Heap) (a : Nat) (hs : spans h a = true) :
    ∃ e, fsAttrValue h a "end" = some (Value.vint e) := by
  simp only [spans, Bool.and_eq_true] at hs
  obtain ⟨_, h2⟩ := hs
  cases hfe : fsAttrValue h a "end" with
  | none => rw [hfe] at h2; simp at h2
  | some val =>
      rw [hfe] at h2
      cases val <;> simp at h2
      rename_i i
      exact ⟨i, rfl⟩

/-- The span of the structure at `a` is contained in `[cb, ce]`. -/
def coveredB (h : Heap) (cb ce : Int) (a : Nat) : Bool :=
  match fsAttrValue h a "begin", fsAttrValue h a "end" with
  | some (Value.vint b), some (Value.vint e) => decide (cb ≤ b) && decide (e ≤ ce)
  | _, _ => false

/-- The span of the structure at `a` contains `[cb, ce]`. -/
def coversB (h : Heap) (cb ce : Int) (a : Nat) : Bool :=
  match fsAttrValue h a "begin", fsAttrValue h a "end" with
  | some (Value.vint b), some (Value.vint e) => decide (b ≤ cb) && decide (ce ≤ e)
  | _, _ => false

/-- The `select_covered` filter loop is the pure span-containment filter
whenever every candidate carries integer span features; it never touches
the heap. -/
theorem filterCovered_run (h : Heap) (cb ce : Int) :
    ∀ l : List Nat, (∀ a ∈ l, spans h a = true) →
    filterCovered cb ce l h = (Except.ok (l.filter (coveredB h cb ce)), h) := by
  intro l
  induction l with
  | nil => intro _; rfl
  | cons a rest ih =>
      intro hsp
      obtain ⟨b, hfb⟩ := spans_begin h a (hsp a (List.mem_cons_self a rest))
      obtain ⟨e, hfe⟩ := spans_end h a (hsp a (List.mem_cons_self a rest))
      have htail := ih (fun x hx => hsp x (List.mem_cons_of_mem a hx))
      have hra := readIntAttr_of_attr h a "begin" b hfb
      have hre := readIntAttr_of_attr h a "end" e hfe
      have hcov : coveredB h cb ce a = (decide (cb ≤ b) && decide (e ≤ ce)) := by
        simp [coveredB, hfb, hfe]
      by_cases hcb : cb ≤ b
      · by_cases hce : e ≤ ce
        · simp [filterCovered, bindApply, pureApply, hra, hre, htail, hcb,
                List.filter_cons, hcov, hce]
        · simp [filterCovered, bindApply, pureApply, hra, hre, htail, hcb,
                List.filter_cons, hcov, hce]
      · simp [filterCovered, bindApply, pureApply, hra, htail, hcb,
              List.filter_cons, hcov]

/-- The `select_covering` filter loop is the pure span-containment filter
whenever every candidate carries integer span features. -/
theorem filterCovering_run (h : Heap) (cb ce : Int) :
    ∀ l : List Nat, (∀ a ∈ l, spans h a = true) →
    filterCovering cb ce l h = (Except.ok (l.filter (coversB h cb ce)), h) := by
  intro l
  induction l with
  | nil => intro _; rfl
  | cons a rest ih =>
      intro hsp
      obtain ⟨b, hfb⟩ := spans_begin h a (hsp a (List.mem_cons_self a rest))
      obtain ⟨e, hfe⟩ := spans_end h a (hsp a (List.mem_cons_self a rest))
      have htail := ih (fun x hx => hsp x (List.mem_cons_of_mem a hx))
      have hra := readIntAttr_of_attr h a "begin" b hfb
      have hre := readIntAttr_of_attr h a "end" e hfe
      have hcov : coversB h cb ce a = (decide (b ≤ cb) && decide (ce ≤ e)) := by
        simp [coversB, hfb, hfe]
      by_cases hcb : b ≤ cb
      · by_cases hce : ce ≤ e
        · simp [filterCovering, bindApply, pureApply, hra, hre, htail, hcb,
                List.filter_cons, hcov, hce]
        · simp [filterCovering, bindApply, pureApply, hra, hre, htail, hcb,
                List.filter_cons, hcov, hce]
      · simp [filterCovering, bindApply, pureApply, hra, htail, hcb,
              List.filter_cons, hcov]

/-- A type system knowing the single annotation type of the selection
examples. -/
def tsSel : TypeSystem := { types := [{ name := "x.Anno" }] }

/-- A document handle for the selection examples. -/
def casSel : CasObj :=
  { ts := tsSel, viewsRef := 0, sofasRef := 1, xmiGenRef := 2, sofaGenRef := 3,
    currentView := 5 }

/-- An annotation of the example type spanning `[b, e)`. -/
def fsSpan (b e : Int) : FSObj :=
  { typeName := "x.Anno", slots := ["begin", "end"],
    attrs := [("begin", Value.vint b), ("end", Value.vint e)] }

/-- Counterexample document: bucket `[6, 7, 8]` with spans `(2,3)`,
`(2,4)`, `(3,4)`; the anchor 9 spans `(2,5)`. -/
def heapC4 : Heap :=
  { cells := [(5, Obj.view { sofa := 4, indices := [("x.Anno", [6, 7, 8])] }),
              (6, Obj.fs (fsSpan 2 3)), (7, Obj.fs (fsSpan 2 4)),
              (8, Obj.fs (fsSpan 3 4)), (9, Obj.fs (fsSpan 2 5))],
    next := 10 }

/-- C4, counterexample to the original wording: with bucket `[6, 7, 8]`
(spans `(2,3)`, `(2,4)`, `(3,4)`) and anchor span `(2,5)`, the prefilter
`idx_begin = max(bisect_key_left((begin, end)) - 1, 0)` starts the window
at index 1, so `select_covered` yields `[7, 8]` and omits structure 6 even
though its span `(2,3)` is covered by the anchor. -/
theorem c4_counterexample :
    okOf (selectCovered casSel "x.Anno" 9 heapC4) = some [7, 8] ∧
    viewBucket heapC4 5 "x.Anno" = some [6, 7, 8] ∧
    fsAttrValue heapC4 9 "begin" = some (Value.vint 2) ∧
    fsAttrValue heapC4 9 "end" = some (Value.vint 5) ∧
    coveredB heapC4 2 5 6 = true ∧
    (6 : Nat) ∉ [7, 8] := by
  refine ⟨rfl, rfl, rfl, rfl, rfl, by decide⟩

/-- The A/B/C example document for `select_covered`: the bucket holds
B `[2,5)` (address 7) and C `[2,11)` (address 8); the anchor A `[0,10)`
sits at address 6. -/
def heapC4abc : Heap :=
  { cells := [(5, Obj.view { sofa := 4, indices := [("x.Anno", [7, 8])] }),
              (6, Obj.fs (fsSpan 0 10)), (7, Obj.fs (fsSpan 2 5)),
              (8, Obj.fs (fsSpan 2 11))],
    next := 9 }

/-- C4 (amended): `select_covered(type_name, anchor)` yields exactly the
candidates of the index-bounded window whose span is contained in the
anchor's span, in window order, and leaves the heap untouched — but the
window itself may omit covered structures (see the counterexample), so
exactness holds relative to the prefiltered window, not the full bucket.
The spec's A/B/C example does hold: over B `[2,5)` and C `[2,11)` with
anchor A `[0,10)`, exactly B is yielded. -/
theorem c4_select_covered_window (h : Heap) (c : CasObj) (tn : String) (anchor : Nat)
    (cb ce : Int) (cand : List Nat)
    (hb : fsAttrValue h anchor "begin" = some (Value.vint cb))
    (he : fsAttrValue h anchor "end" = some (Value.vint ce))
    (hcand : getFSInRange c tn cb ce h = (Except.ok cand, h))
    (hspan : ∀ a ∈ cand, spans h a = true) :
    selectCovered c tn anchor h = (Except.ok (cand.filter (coveredB h cb ce)), h) ∧
    okOf (selectCovered casSel "x.Anno" 6 heapC4abc) = some [7] := by
  refine ⟨?_, rfl⟩
  simp [selectCovered, bindApply, readIntAttr_of_attr h anchor "begin" cb hb,
        readIntAttr_of_attr h anchor "end" ce he, hcand, filterCovered_run h cb ce cand hspan]

theorem c4_witness :
    (selectCovered casSel "x.Anno" 9 heapC4 =
      (Except.ok ([7, 8].filter (coveredB heapC4 2 5)), heapC4) ∧
     okOf (selectCovered casSel "x.Anno" 6 heapC4abc) = some [7]) :=
  c4_select_covered_window heapC4 casSel "x.Anno" 9 2 5 [7, 8] rfl rfl rfl (by decide)

/-- The A/B/C example document for `select_covering`: the bucket holds
A `[0,10)` (address 6) and C `[2,11)` (address 8); the anchor B `[2,5)`
sits at address 7. -/
def heapC9 : Heap :=
  { cells := [(5, Obj.view { sofa := 4, indices := [("x.Anno", [6, 8])] }),
              (6, Obj.fs (fsSpan 0 10)), (7, Obj.fs (fsSpan 2 5)),
              (8, Obj.fs (fsSpan 2 11))],
    next := 9 }

/-- C9: `select_covering(type_name, anchor)` yields exactly those
structures of the candidate buckets of the current view — the
concatenation, in index order, of the buckets of the type's subtypes and
of the type itself — whose span contains the anchor's span, and leaves the
heap untouched.  The spec's example holds: over A `[0,10)` and C `[2,11)`
with anchor B `[2,5)`, exactly A and C are yielded, in bucket order. -/
theorem c9_select_covering_exact (h : Heap) (c : CasObj) (tn : String) (anchor : Nat)
    (cb ce : Int) (t : TypeD) (v : ViewObj)
    (hb : fsAttrValue h anchor "begin" = some (Value.vint cb))
    (he : fsAttrValue h anchor "end" = some (Value.vint ce))
    (ht : c.ts.getType? tn = some t)
    (hv : h.lookup c.currentView = some (Obj.view v))
    (hspan : ∀ a ∈ ((t.childrenNames ++ [tn]).eraseDups).foldl
        (fun acc n => acc ++ ((alookup n v.indices).getD [])) [], spans h a = true) :
    selectCovering c tn anchor h =
      (Except.ok ((((t.childrenNames ++ [tn]).eraseDups).foldl
          (fun acc n => acc ++ ((alookup n v.indices).getD [])) []).filter
        (coversB h cb ce)), h) ∧
    okOf (selectCovering casSel "x.Anno" 7 heapC9) = some [6, 8] := by
  refine ⟨?_, rfl⟩
  have hcand : getFSList c tn h =
      (Except.ok (((t.childrenNames ++ [tn]).eraseDups).foldl
        (fun acc n => acc ++ ((alookup n v.indices).getD [])) []), h) := by
    simp [getFSList, candidateNames, getTypeM, readView, readObj, bindApply, pureApply, ht, hv]
  simp [selectCovering, bindApply, readIntAttr_of_attr h anchor "begin" cb hb,
        readIntAttr_of_attr h anchor "end" ce he, hcand,
        filterCovering_run h cb ce _ hspan]

theorem c9_witness :
    (selectCovering casSel "x.Anno" 7 heapC9 =
      (Except.ok (((([] ++ ["x.Anno"]).eraseDups).foldl
          (fun acc n => acc ++ ((alookup n ([("x.Anno", [6, 8])] : List (String × List Nat))).getD [])) []).filter
        (coversB heapC9 2 5)), heapC9) ∧
     okOf (selectCovering casSel "x.Anno" 7 heapC9) = some [6, 8]) :=
  c9_select_covering_exact heapC9 casSel "x.Anno" 7 2 5 { name := "x.Anno" }
    { sofa := 4, indices := [("x.Anno", [6, 8])] } rfl rfl rfl rfl (by decide)

def tsX : TypeSystem :=
  { types := [
      { name := "uima.cas.Sofa", superTypeName := "uima.cas.TOP",
        features := [
          { name := "sofaNum", rangeTypeName := "uima.cas.Integer" },
          { name := "sofaID", rangeTypeName := "uima.cas.String" },
          { name := "sofaString", rangeTypeName := "uima.cas.String" },
          { name := "mimeType", rangeTypeName := "uima.cas.String" },
          { name := "sofaURI", rangeTypeName := "uima.cas.String" },
          { name := "sofaArray", rangeTypeName := "uima.cas.TOP" } ] },
      { name := "x.Anno", superTypeName := "uima.tcas.Annotation",
        features := [
          { name := "begin", rangeTypeName := "uima.cas.Integer" },
          { name := "end", rangeTypeName := "uima.cas.Integer" },
          { name := "sofa", rangeTypeName := "uima.cas.Sofa" },
          { name := "other", rangeTypeName := "x.Anno" } ] } ],
    primitiveTypes := ["uima.cas.Integer", "uima.cas.String"] }

def c1Build : CasM Value := do
  let c ← casNew tsX
  let a2 ← allocObj (Obj.fs { typeName := "x.Anno", slots := ["begin", "end", "sofa", "other"], attrs := [("begin", Value.vint 1), ("end", Value.vint 2)] })
  let a1 ← allocObj (Obj.fs { typeName := "x.Anno", slots := ["begin", "end", "sofa", "other"], attrs := [("begin", Value.vint 0), ("end", Value.vint 1), ("other", Value.vref a2)] })
  addAnnot c a1 false
  addAnnot c a2 false
  serializeCas c

def c1Recs : List Value :=
  [Value.vobj [(ID_FIELD, Value.vint 1), (TYPE_FIELD, Value.vstr "uima.cas.Sofa"),
               ("sofaNum", Value.vint 1), ("sofaID", Value.vstr "_InitialView")],
   Value.vobj [(ID_FIELD, Value.vint 2), (TYPE_FIELD, Value.vstr "x.Anno"),
               ("begin", Value.vint 0), ("end", Value.vint 1),
               ("@sofa", Value.vint 1), ("@other", Value.vint 3)],
   Value.vobj [(ID_FIELD, Value.vint 3), (TYPE_FIELD, Value.vstr "x.Anno"),
               ("begin", Value.vint 1), ("end", Value.vint 2),
               ("@sofa", Value.vint 1)]]

def c1Views : List (String × Value) :=
  [("_InitialView", Value.vobj [(VIEW_SOFA_FIELD, Value.vint 1),
                                (VIEW_INDEX_FIELD, Value.varr [Value.vint 2, Value.vint 3])])]

def c1Wire : Value :=
  Value.vobj [(TYPES_FIELD, Value.vobj []),
              (VIEWS_FIELD, Value.vobj c1Views),
              (FEATURE_STRUCTURES_FIELD, Value.varr c1Recs)]

def c0 : CasObj := { ts := tsX, viewsRef := 1, sofasRef := 0, xmiGenRef := 2, sofaGenRef := 3, currentView := 5 }

def H0 : Heap :=
  { cells := [(0, Obj.dict [("_InitialView", 4)]),
              (1, Obj.dict [("_InitialView", 5)]),
              (5, Obj.view { sofa := 4, indices := [] }),
              (4, Obj.sofa { sofaNum := 1, xmiID := 1, sofaID := "_InitialView" }),
              (3, Obj.gen 2), (2, Obj.gen 2), (3, Obj.gen 1), (2, Obj.gen 1),
              (1, Obj.dict []), (0, Obj.dict [])],
    next := 6 }

def c1Table : Table := [(1, 4), (2, 13), (3, 15)]

def c1H1 : Heap := { cells := [(15, Cassis.Obj.fs { typeName := "x.Anno", xmiID := some 3, slots := ["begin", "end", "sofa", "other"], attrs := [("begin", Cassis.Value.vint 1), ("end", Cassis.Value.vint 2), ("sofa", Cassis.Value.vref 4)] }), (14, Cassis.Obj.sdict [("begin", Cassis.Value.vint 1), ("end", Cassis.Value.vint 2), ("xmiID", Cassis.Value.vint 3), ("sofa", Cassis.Value.vref 4)]), (14, Cassis.Obj.sdict [("%ID", Cassis.Value.vint 3), ("%TYPE", Cassis.Value.vstr "x.Anno"), ("begin", Cassis.Value.vint 1), ("end", Cassis.Value.vint 2), ("xmiID", Cassis.Value.vint 3), ("sofa", Cassis.Value.vref 4)]), (14, Cassis.Obj.sdict [("%ID", Cassis.Value.vint 3), ("%TYPE", Cassis.Value.vstr "x.Anno"), ("begin", Cassis.Value.vint 1), ("end", Cassis.Value.vint 2), ("xmiID", Cassis.Value.vint 3)]), (14, Cassis.Obj.sdict [("%ID", Cassis.Value.vint 3), ("%TYPE", Cassis.Value.vstr "x.Anno"), ("begin", Cassis.Value.vint 1), ("end", Cassis.Value.vint 2), ("@sofa", Cassis.Value.vint 1), ("xmiID", Cassis.Value.vint 3)]), (14, Cassis.Obj.sdict [("%ID", Cassis.Value.vint 3), ("%TYPE", Cassis.Value.vstr "x.Anno"), ("begin", Cassis.Value.vint 1), ("end", Cassis.Value.vint 2), ("@sofa", Cassis.Value.vint 1)]), (13, Cassis.Obj.fs { typeName := "x.Anno", xmiID := some 2, slots := ["begin", "end", "sofa", "other"], attrs := [("begin", Cassis.Value.vint 0), ("end", Cassis.Value.vint 1), ("sofa", Cassis.Value.vref 4)] }), (12, Cassis.Obj.sdict [("begin", Cassis.Value.vint 0), ("end", Cassis.Value.vint 1), ("xmiID", Cassis.Value.vint 2), ("sofa", Cassis.Value.vref 4)]), (12, Cassis.Obj.sdict [("%ID", Cassis.Value.vint 2), ("%TYPE", Cassis.Value.vstr "x.Anno"), ("begin", Cassis.Value.vint 0), ("end", Cassis.Value.vint 1), ("xmiID", Cassis.Value.vint 2), ("sofa", Cassis.Value.vref 4)]), (12, Cassis.Obj.sdict [("%ID", Cassis.Value.vint 2), ("%TYPE", Cassis.Value.vstr "x.Anno"), ("begin", Cassis.Value.vint 0), ("end", Cassis.Value.vint 1), ("@other", Cassis.Value.vint 3), ("xmiID", Cassis.Value.vint 2), ("sofa", Cassis.Value.vref 4)]), (12, Cassis.Obj.sdict [("%ID", Cassis.Value.vint 2), ("%TYPE", Cassis.Value.vstr "x.Anno"), ("begin", Cassis.Value.vint 0), ("end", Cassis.Value.vint 1), ("@other", Cassis.Value.vint 3), ("xmiID", Cassis.Value.vint 2)]), (12, Cassis.Obj.sdict [("%ID", Cassis.Value.vint 2), ("%TYPE", Cassis.Value.vstr "x.Anno"), ("begin", Cassis.Value.vint 0), ("end", Cassis.Value.vint 1), ("@sofa", Cassis.Value.vint 1), ("@other", Cassis.Value.vint 3), ("xmiID", Cassis.Value.vint 2)]), (12, Cassis.Obj.sdict [("%ID", Cassis.Value.vint 2), ("%TYPE", Cassis.Value.vstr "x.Anno"), ("begin", Cassis.Value.vint 0), ("end", Cassis.Value.vint 1), ("@sofa", Cassis.Value.vint 1), ("@other", Cassis.Value.vint 3)]), (4, Cassis.Obj.sofa { sofaNum := 1, xmiID := 1, sofaID := "_InitialView", sofaString := none, mimeType := none, sofaURI := none, sofaArray := none }), (4, Cassis.Obj.sofa { sofaNum := 1, xmiID := 1, sofaID := "_InitialView", sofaString := none, mimeType := none, sofaURI := none, sofaArray := none }), (4, Cassis.Obj.sofa { sofaNum := 1, xmiID := 1, sofaID := "_InitialView", sofaString := none, mimeType := none, sofaURI := none, sofaArray := none }), (4, Cassis.Obj.sofa { sofaNum := 1, xmiID := 1, sofaID := "_InitialView", sofaString := none, mimeType := none, sofaURI := none, sofaArray := none }), (4, Cassis.Obj.sofa { sofaNum := 1, xmiID := 1, sofaID := "_InitialView", sofaString := none, mimeType := none, sofaURI := none, sofaArray := none }), (6, Cassis.Obj.dict [("_InitialView", 10)]), (7, Cassis.Obj.dict [("_InitialView", 11)]), (11, Cassis.Obj.view { sofa := 10, indices := [] }), (10, Cassis.Obj.sofa { sofaNum := 1, xmiID := 1, sofaID := "_InitialView", sofaString := none, mimeType := none, sofaURI := none, sofaArray := none }), (9, Cassis.Obj.gen 2), (8, Cassis.Obj.gen 2), (9, Cassis.Obj.gen 1), (8, Cassis.Obj.gen 1), (7, Cassis.Obj.dict []), (6, Cassis.Obj.dict []), (0, Cassis.Obj.dict [("_InitialView", 4)]), (1, Cassis.Obj.dict [("_InitialView", 5)]), (5, Cassis.Obj.view { sofa := 4, indices := [] }), (4, Cassis.Obj.sofa { sofaNum := 1, xmiID := 1, sofaID := "_InitialView", sofaString := none, mimeType := none, sofaURI := none, sofaArray := none }), (3, Cassis.Obj.gen 2), (2, Cassis.Obj.gen 2), (3, Cassis.Obj.gen 1), (2, Cassis.Obj.gen 1), (1, Cassis.Obj.dict []), (0, Cassis.Obj.dict [])], next := 16 }

def c1H2 : Heap := { cells := [(12, Cassis.Obj.sdict [("begin", Cassis.Value.vint 0), ("end", Cassis.Value.vint 1), ("xmiID", Cassis.Value.vint 2), ("sofa", Cassis.Value.vref 4), ("other", Cassis.Value.vref 13)]), (15, Cassis.Obj.fs { typeName := "x.Anno", xmiID := some 3, slots := ["begin", "end", "sofa", "other"], attrs := [("begin", Cassis.Value.vint 1), ("end", Cassis.Value.vint 2), ("sofa", Cassis.Value.vref 4)] }), (14, Cassis.Obj.sdict [("begin", Cassis.Value.vint 1), ("end", Cassis.Value.vint 2), ("xmiID", Cassis.Value.vint 3), ("sofa", Cassis.Value.vref 4)]), (14, Cassis.Obj.sdict [("%ID", Cassis.Value.vint 3), ("%TYPE", Cassis.Value.vstr "x.Anno"), ("begin", Cassis.Value.vint 1), ("end", Cassis.Value.vint 2), ("xmiID", Cassis.Value.vint 3), ("sofa", Cassis.Value.vref 4)]), (14, Cassis.Obj.sdict [("%ID", Cassis.Value.vint 3), ("%TYPE", Cassis.Value.vstr "x.Anno"), ("begin", Cassis.Value.vint 1), ("end", Cassis.Value.vint 2), ("xmiID", Cassis.Value.vint 3)]), (14, Cassis.Obj.sdict [("%ID", Cassis.Value.vint 3), ("%TYPE", Cassis.Value.vstr "x.Anno"), ("begin", Cassis.Value.vint 1), ("end", Cassis.Value.vint 2), ("@sofa", Cassis.Value.vint 1), ("xmiID", Cassis.Value.vint 3)]), (14, Cassis.Obj.sdict [("%ID", Cassis.Value.vint 3), ("%TYPE", Cassis.Value.vstr "x.Anno"), ("begin", Cassis.Value.vint 1), ("end", Cassis.Value.vint 2), ("@sofa", Cassis.Value.vint 1)]), (13, Cassis.Obj.fs { typeName := "x.Anno", xmiID := some 2, slots := ["begin", "end", "sofa", "other"], attrs := [("begin", Cassis.Value.vint 0), ("end", Cassis.Value.vint 1), ("sofa", Cassis.Value.vref 4)] }), (12, Cassis.Obj.sdict [("begin", Cassis.Value.vint 0), ("end", Cassis.Value.vint 1), ("xmiID", Cassis.Value.vint 2), ("sofa", Cassis.Value.vref 4)]), (12, Cassis.Obj.sdict [("%ID", Cassis.Value.vint 2), ("%TYPE", Cassis.Value.vstr "x.Anno"), ("begin", Cassis.Value.vint 0), ("end", Cassis.Value.vint 1), ("xmiID", Cassis.Value.vint 2), ("sofa", Cassis.Value.vref 4)]), (12, Cassis.Obj.sdict [("%ID", Cassis.Value.vint 2), ("%TYPE", Cassis.Value.vstr "x.Anno"), ("begin", Cassis.Value.vint 0), ("end", Cassis.Value.vint 1), ("@other", Cassis.Value.vint 3), ("xmiID", Cassis.Value.vint 2), ("sofa", Cassis.Value.vref 4)]), (12, Cassis.Obj.sdict [("%ID", Cassis.Value.vint 2), ("%TYPE", Cassis.Value.vstr "x.Anno"), ("begin", Cassis.Value.vint 0), ("end", Cassis.Value.vint 1), ("@other", Cassis.Value.vint 3), ("xmiID", Cassis.Value.vint 2)]), (12, Cassis.Obj.sdict [("%ID", Cassis.Value.vint 2), ("%TYPE", Cassis.Value.vstr "x.Anno"), ("begin", Cassis.Value.vint 0), ("end", Cassis.Value.vint 1), ("@sofa", Cassis.Value.vint 1), ("@other", Cassis.Value.vint 3), ("xmiID", Cassis.Value.vint 2)]), (12, Cassis.Obj.sdict [("%ID", Cassis.Value.vint 2), ("%TYPE", Cassis.Value.vstr "x.Anno"), ("begin", Cassis.Value.vint 0), ("end", Cassis.Value.vint 1), ("@sofa", Cassis.Value.vint 1), ("@other", Cassis.Value.vint 3)]), (4, Cassis.Obj.sofa { sofaNum := 1, xmiID := 1, sofaID := "_InitialView", sofaString := none, mimeType := none, sofaURI := none, sofaArray := none }), (4, Cassis.Obj.sofa { sofaNum := 1, xmiID := 1, sofaID := "_InitialView", sofaString := none, mimeType := none, sofaURI := none, sofaArray := none }), (4, Cassis.Obj.sofa { sofaNum := 1, xmiID := 1, sofaID := "_InitialView", sofaString := none, mimeType := none, sofaURI := none, sofaArray := none }), (4, Cassis.Obj.sofa { sofaNum := 1, xmiID := 1, sofaID := "_InitialView", sofaString := none, mimeType := none, sofaURI := none, sofaArray := none }), (4, Cassis.Obj.sofa { sofaNum := 1, xmiID := 1, sofaID := "_InitialView", sofaString := none, mimeType := none, sofaURI := none, sofaArray := none }), (6, Cassis.Obj.dict [("_InitialView", 10)]), (7, Cassis.Obj.dict [("_InitialView", 11)]), (11, Cassis.Obj.view { sofa := 10, indices := [] }), (10, Cassis.Obj.sofa { sofaNum := 1, xmiID := 1, sofaID := "_InitialView", sofaString := none, mimeType := none, sofaURI := none, sofaArray := none }), (9, Cassis.Obj.gen 2), (8, Cassis.Obj.gen 2), (9, Cassis.Obj.gen 1), (8, Cassis.Obj.gen 1), (7, Cassis.Obj.dict []), (6, Cassis.Obj.dict []), (0, Cassis.Obj.dict [("_InitialView", 4)]), (1, Cassis.Obj.dict [("_InitialView", 5)]), (5, Cassis.Obj.view { sofa := 4, indices := [] }), (4, Cassis.Obj.sofa { sofaNum := 1, xmiID := 1, sofaID := "_InitialView", sofaString := none, mimeType := none, sofaURI := none, sofaArray := none }), (3, Cassis.Obj.gen 2), (2, Cassis.Obj.gen 2), (3, Cassis.Obj.gen 1), (2, Cassis.Obj.gen 1), (1, Cassis.Obj.dict []), (0, Cassis.Obj.dict [])], next := 16 }

def c1H2x : Heap := { cells := [(16, Cassis.Obj.gen 4), (12, Cassis.Obj.sdict [("begin", Cassis.Value.vint 0), ("end", Cassis.Value.vint 1), ("xmiID", Cassis.Value.vint 2), ("sofa", Cassis.Value.vref 4), ("other", Cassis.Value.vref 13)]), (15, Cassis.Obj.fs { typeName := "x.Anno", xmiID := some 3, slots := ["begin", "end", "sofa", "other"], attrs := [("begin", Cassis.Value.vint 1), ("end", Cassis.Value.vint 2), ("sofa", Cassis.Value.vref 4)] }), (14, Cassis.Obj.sdict [("begin", Cassis.Value.vint 1), ("end", Cassis.Value.vint 2), ("xmiID", Cassis.Value.vint 3), ("sofa", Cassis.Value.vref 4)]), (14, Cassis.Obj.sdict [("%ID", Cassis.Value.vint 3), ("%TYPE", Cassis.Value.vstr "x.Anno"), ("begin", Cassis.Value.vint 1), ("end", Cassis.Value.vint 2), ("xmiID", Cassis.Value.vint 3), ("sofa", Cassis.Value.vref 4)]), (14, Cassis.Obj.sdict [("%ID", Cassis.Value.vint 3), ("%TYPE", Cassis.Value.vstr "x.Anno"), ("begin", Cassis.Value.vint 1), ("end", Cassis.Value.vint 2), ("xmiID", Cassis.Value.vint 3)]), (14, Cassis.Obj.sdict [("%ID", Cassis.Value.vint 3), ("%TYPE", Cassis.Value.vstr "x.Anno"), ("begin", Cassis.Value.vint 1), ("end", Cassis.Value.vint 2), ("@sofa", Cassis.Value.vint 1), ("xmiID", Cassis.Value.vint 3)]), (14, Cassis.Obj.sdict [("%ID", Cassis.Value.vint 3), ("%TYPE", Cassis.Value.vstr "x.Anno"), ("begin", Cassis.Value.vint 1), ("end", Cassis.Value.vint 2), ("@sofa", Cassis.Value.vint 1)]), (13, Cassis.Obj.fs { typeName := "x.Anno", xmiID := some 2, slots := ["begin", "end", "sofa", "other"], attrs := [("begin", Cassis.Value.vint 0), ("end", Cassis.Value.vint 1), ("sofa", Cassis.Value.vref 4)] }), (12, Cassis.Obj.sdict [("begin", Cassis.Value.vint 0), ("end", Cassis.Value.vint 1), ("xmiID", Cassis.Value.vint 2), ("sofa", Cassis.Value.vref 4)]), (12, Cassis.Obj.sdict [("%ID", Cassis.Value.vint 2), ("%TYPE", Cassis.Value.vstr "x.Anno"), ("begin", Cassis.Value.vint 0), ("end", Cassis.Value.vint 1), ("xmiID", Cassis.Value.vint 2), ("sofa", Cassis.Value.vref 4)]), (12, Cassis.Obj.sdict [("%ID", Cassis.Value.vint 2), ("%TYPE", Cassis.Value.vstr "x.Anno"), ("begin", Cassis.Value.vint 0), ("end", Cassis.Value.vint 1), ("@other", Cassis.Value.vint 3), ("xmiID", Cassis.Value.vint 2), ("sofa", Cassis.Value.vref 4)]), (12, Cassis.Obj.sdict [("%ID", Cassis.Value.vint 2), ("%TYPE", Cassis.Value.vstr "x.Anno"), ("begin", Cassis.Value.vint 0), ("end", Cassis.Value.vint 1), ("@other", Cassis.Value.vint 3), ("xmiID", Cassis.Value.vint 2)]), (12, Cassis.Obj.sdict [("%ID", Cassis.Value.vint 2), ("%TYPE", Cassis.Value.vstr "x.Anno"), ("begin", Cassis.Value.vint 0), ("end", Cassis.Value.vint 1), ("@sofa", Cassis.Value.vint 1), ("@other", Cassis.Value.vint 3), ("xmiID", Cassis.Value.vint 2)]), (12, Cassis.Obj.sdict [("%ID", Cassis.Value.vint 2), ("%TYPE", Cassis.Value.vstr "x.Anno"), ("begin", Cassis.Value.vint 0), ("end", Cassis.Value.vint 1), ("@sofa", Cassis.Value.vint 1), ("@other", Cassis.Value.vint 3)]), (4, Cassis.Obj.sofa { sofaNum := 1, xmiID := 1, sofaID := "_InitialView", sofaString := none, mimeType := none, sofaURI := none, sofaArray := none }), (4, Cassis.Obj.sofa { sofaNum := 1, xmiID := 1, sofaID := "_InitialView", sofaString := none, mimeType := none, sofaURI := none, sofaArray := none }), (4, Cassis.Obj.sofa { sofaNum := 1, xmiID := 1, sofaID := "_InitialView", sofaString := none, mimeType := none, sofaURI := none, sofaArray := none }), (4, Cassis.Obj.sofa { sofaNum := 1, xmiID := 1, sofaID := "_InitialView", sofaString := none, mimeType := none, sofaURI := none, sofaArray := none }), (4, Cassis.Obj.sofa { sofaNum := 1, xmiID := 1, sofaID := "_InitialView", sofaString := none, mimeType := none, sofaURI := none, sofaArray := none }), (6, Cassis.Obj.dict [("_InitialView", 10)]), (7, Cassis.Obj.dict [("_InitialView", 11)]), (11, Cassis.Obj.view { sofa := 10, indices := [] }), (10, Cassis.Obj.sofa { sofaNum := 1, xmiID := 1, sofaID := "_InitialView", sofaString := none, mimeType := none, sofaURI := none, sofaArray := none }), (9, Cassis.Obj.gen 2), (8, Cassis.Obj.gen 2), (9, Cassis.Obj.gen 1), (8, Cassis.Obj.gen 1), (7, Cassis.Obj.dict []), (6, Cassis.Obj.dict []), (0, Cassis.Obj.dict [("_InitialView", 4)]), (1, Cassis.Obj.dict [("_InitialView", 5)]), (5, Cassis.Obj.view { sofa := 4, indices := [] }), (4, Cassis.Obj.sofa { sofaNum := 1, xmiID := 1, sofaID := "_InitialView", sofaString := none, mimeType := none, sofaURI := none, sofaArray := none }), (3, Cassis.Obj.gen 2), (2, Cassis.Obj.gen 2), (3, Cassis.Obj.gen 1), (2, Cassis.Obj.gen 1), (1, Cassis.Obj.dict []), (0, Cassis.Obj.dict [])], next := 17 }

def c1H2b : Heap := { cells := [(17, Cassis.Obj.gen 1), (16, Cassis.Obj.gen 4), (12, Cassis.Obj.sdict [("begin", Cassis.Value.vint 0), ("end", Cassis.Value.vint 1), ("xmiID", Cassis.Value.vint 2), ("sofa", Cassis.Value.vref 4), ("other", Cassis.Value.vref 13)]), (15, Cassis.Obj.fs { typeName := "x.Anno", xmiID := some 3, slots := ["begin", "end", "sofa", "other"], attrs := [("begin", Cassis.Value.vint 1), ("end", Cassis.Value.vint 2), ("sofa", Cassis.Value.vref 4)] }), (14, Cassis.Obj.sdict [("begin", Cassis.Value.vint 1), ("end", Cassis.Value.vint 2), ("xmiID", Cassis.Value.vint 3), ("sofa", Cassis.Value.vref 4)]), (14, Cassis.Obj.sdict [("%ID", Cassis.Value.vint 3), ("%TYPE", Cassis.Value.vstr "x.Anno"), ("begin", Cassis.Value.vint 1), ("end", Cassis.Value.vint 2), ("xmiID", Cassis.Value.vint 3), ("sofa", Cassis.Value.vref 4)]), (14, Cassis.Obj.sdict [("%ID", Cassis.Value.vint 3), ("%TYPE", Cassis.Value.vstr "x.Anno"), ("begin", Cassis.Value.vint 1), ("end", Cassis.Value.vint 2), ("xmiID", Cassis.Value.vint 3)]), (14, Cassis.Obj.sdict [("%ID", Cassis.Value.vint 3), ("%TYPE", Cassis.Value.vstr "x.Anno"), ("begin", Cassis.Value.vint 1), ("end", Cassis.Value.vint 2), ("@sofa", Cassis.Value.vint 1), ("xmiID", Cassis.Value.vint 3)]), (14, Cassis.Obj.sdict [("%ID", Cassis.Value.vint 3), ("%TYPE", Cassis.Value.vstr "x.Anno"), ("begin", Cassis.Value.vint 1), ("end", Cassis.Value.vint 2), ("@sofa", Cassis.Value.vint 1)]), (13, Cassis.Obj.fs { typeName := "x.Anno", xmiID := some 2, slots := ["begin", "end", "sofa", "other"], attrs := [("begin", Cassis.Value.vint 0), ("end", Cassis.Value.vint 1), ("sofa", Cassis.Value.vref 4)] }), (12, Cassis.Obj.sdict [("begin", Cassis.Value.vint 0), ("end", Cassis.Value.vint 1), ("xmiID", Cassis.Value.vint 2), ("sofa", Cassis.Value.vref 4)]), (12, Cassis.Obj.sdict [("%ID", Cassis.Value.vint 2), ("%TYPE", Cassis.Value.vstr "x.Anno"), ("begin", Cassis.Value.vint 0), ("end", Cassis.Value.vint 1), ("xmiID", Cassis.Value.vint 2), ("sofa", Cassis.Value.vref 4)]), (12, Cassis.Obj.sdict [("%ID", Cassis.Value.vint 2), ("%TYPE", Cassis.Value.vstr "x.Anno"), ("begin", Cassis.Value.vint 0), ("end", Cassis.Value.vint 1), ("@other", Cassis.Value.vint 3), ("xmiID", Cassis.Value.vint 2), ("sofa", Cassis.Value.vref 4)]), (12, Cassis.Obj.sdict [("%ID", Cassis.Value.vint 2), ("%TYPE", Cassis.Value.vstr "x.Anno"), ("begin", Cassis.Value.vint 0), ("end", Cassis.Value.vint 1), ("@other", Cassis.Value.vint 3), ("xmiID", Cassis.Value.vint 2)]), (12, Cassis.Obj.sdict [("%ID", Cassis.Value.vint 2), ("%TYPE", Cassis.Value.vstr "x.Anno"), ("begin", Cassis.Value.vint 0), ("end", Cassis.Value.vint 1), ("@sofa", Cassis.Value.vint 1), ("@other", Cassis.Value.vint 3), ("xmiID", Cassis.Value.vint 2)]), (12, Cassis.Obj.sdict [("%ID", Cassis.Value.vint 2), ("%TYPE", Cassis.Value.vstr "x.Anno"), ("begin", Cassis.Value.vint 0), ("end", Cassis.Value.vint 1), ("@sofa", Cassis.Value.vint 1), ("@other", Cassis.Value.vint 3)]), (4, Cassis.Obj.sofa { sofaNum := 1, xmiID := 1, sofaID := "_InitialView", sofaString := none, mimeType := none, sofaURI := none, sofaArray := none }), (4, Cassis.Obj.sofa { sofaNum := 1, xmiID := 1, sofaID := "_InitialView", sofaString := none, mimeType := none, sofaURI := none, sofaArray := none }), (4, Cassis.Obj.sofa { sofaNum := 1, xmiID := 1, sofaID := "_InitialView", sofaString := none, mimeType := none, sofaURI := none, sofaArray := none }), (4, Cassis.Obj.sofa { sofaNum := 1, xmiID := 1, sofaID := "_InitialView", sofaString := none, mimeType := none, sofaURI := none, sofaArray := none }), (4, Cassis.Obj.sofa { sofaNum := 1, xmiID := 1, sofaID := "_InitialView", sofaString := none, mimeType := none, sofaURI := none, sofaArray := none }), (6, Cassis.Obj.dict [("_InitialView", 10)]), (7, Cassis.Obj.dict [("_InitialView", 11)]), (11, Cassis.Obj.view { sofa := 10, indices := [] }), (10, Cassis.Obj.sofa { sofaNum := 1, xmiID := 1, sofaID := "_InitialView", sofaString := none, mimeType := none, sofaURI := none, sofaArray := none }), (9, Cassis.Obj.gen 2), (8, Cassis.Obj.gen 2), (9, Cassis.Obj.gen 1), (8, Cassis.Obj.gen 1), (7, Cassis.Obj.dict []), (6, Cassis.Obj.dict []), (0, Cassis.Obj.dict [("_InitialView", 4)]), (1, Cassis.Obj.dict [("_InitialView", 5)]), (5, Cassis.Obj.view { sofa := 4, indices := [] }), (4, Cassis.Obj.sofa { sofaNum := 1, xmiID := 1, sofaID := "_InitialView", sofaString := none, mimeType := none, sofaURI := none, sofaArray := none }), (3, Cassis.Obj.gen 2), (2, Cassis.Obj.gen 2), (3, Cassis.Obj.gen 1), (2, Cassis.Obj.gen 1), (1, Cassis.Obj.dict []), (0, Cassis.Obj.dict [])], next := 18 }

def c1H3 : Heap := { cells := [(5, Cassis.Obj.view { sofa := 4, indices := [("x.Anno", [13, 15])] }), (15, Cassis.Obj.fs { typeName := "x.Anno", xmiID := some 3, slots := ["begin", "end", "sofa", "other"], attrs := [("begin", Cassis.Value.vint 1), ("end", Cassis.Value.vint 2), ("sofa", Cassis.Value.vref 4)] }), (5, Cassis.Obj.view { sofa := 4, indices := [("x.Anno", [13])] }), (13, Cassis.Obj.fs { typeName := "x.Anno", xmiID := some 2, slots := ["begin", "end", "sofa", "other"], attrs := [("begin", Cassis.Value.vint 0), ("end", Cassis.Value.vint 1), ("sofa", Cassis.Value.vref 4)] }), (18, Cassis.Obj.dict [("_InitialView", 22)]), (19, Cassis.Obj.dict [("_InitialView", 23)]), (23, Cassis.Obj.view { sofa := 22, indices := [] }), (22, Cassis.Obj.sofa { sofaNum := 1, xmiID := 1, sofaID := "_InitialView", sofaString := none, mimeType := none, sofaURI := none, sofaArray := none }), (21, Cassis.Obj.gen 2), (20, Cassis.Obj.gen 2), (21, Cassis.Obj.gen 1), (20, Cassis.Obj.gen 1), (19, Cassis.Obj.dict []), (18, Cassis.Obj.dict []), (17, Cassis.Obj.gen 1), (16, Cassis.Obj.gen 4), (12, Cassis.Obj.sdict [("begin", Cassis.Value.vint 0), ("end", Cassis.Value.vint 1), ("xmiID", Cassis.Value.vint 2), ("sofa", Cassis.Value.vref 4), ("other", Cassis.Value.vref 13)]), (15, Cassis.Obj.fs { typeName := "x.Anno", xmiID := some 3, slots := ["begin", "end", "sofa", "other"], attrs := [("begin", Cassis.Value.vint 1), ("end", Cassis.Value.vint 2), ("sofa", Cassis.Value.vref 4)] }), (14, Cassis.Obj.sdict [("begin", Cassis.Value.vint 1), ("end", Cassis.Value.vint 2), ("xmiID", Cassis.Value.vint 3), ("sofa", Cassis.Value.vref 4)]), (14, Cassis.Obj.sdict [("%ID", Cassis.Value.vint 3), ("%TYPE", Cassis.Value.vstr "x.Anno"), ("begin", Cassis.Value.vint 1), ("end", Cassis.Value.vint 2), ("xmiID", Cassis.Value.vint 3), ("sofa", Cassis.Value.vref 4)]), (14, Cassis.Obj.sdict [("%ID", Cassis.Value.vint 3), ("%TYPE", Cassis.Value.vstr "x.Anno"), ("begin", Cassis.Value.vint 1), ("end", Cassis.Value.vint 2), ("xmiID", Cassis.Value.vint 3)]), (14, Cassis.Obj.sdict [("%ID", Cassis.Value.vint 3), ("%TYPE", Cassis.Value.vstr "x.Anno"), ("begin", Cassis.Value.vint 1), ("end", Cassis.Value.vint 2), ("@sofa", Cassis.Value.vint 1), ("xmiID", Cassis.Value.vint 3)]), (14, Cassis.Obj.sdict [("%ID", Cassis.Value.vint 3), ("%TYPE", Cassis.Value.vstr "x.Anno"), ("begin", Cassis.Value.vint 1), ("end", Cassis.Value.vint 2), ("@sofa", Cassis.Value.vint 1)]), (13, Cassis.Obj.fs { typeName := "x.Anno", xmiID := some 2, slots := ["begin", "end", "sofa", "other"], attrs := [("begin", Cassis.Value.vint 0), ("end", Cassis.Value.vint 1), ("sofa", Cassis.Value.vref 4)] }), (12, Cassis.Obj.sdict [("begin", Cassis.Value.vint 0), ("end", Cassis.Value.vint 1), ("xmiID", Cassis.Value.vint 2), ("sofa", Cassis.Value.vref 4)]), (12, Cassis.Obj.sdict [("%ID", Cassis.Value.vint 2), ("%TYPE", Cassis.Value.vstr "x.Anno"), ("begin", Cassis.Value.vint 0), ("end", Cassis.Value.vint 1), ("xmiID", Cassis.Value.vint 2), ("sofa", Cassis.Value.vref 4)]), (12, Cassis.Obj.sdict [("%ID", Cassis.Value.vint 2), ("%TYPE", Cassis.Value.vstr "x.Anno"), ("begin", Cassis.Value.vint 0), ("end", Cassis.Value.vint 1), ("@other", Cassis.Value.vint 3), ("xmiID", Cassis.Value.vint 2), ("sofa", Cassis.Value.vref 4)]), (12, Cassis.Obj.sdict [("%ID", Cassis.Value.vint 2), ("%TYPE", Cassis.Value.vstr "x.Anno"), ("begin", Cassis.Value.vint 0), ("end", Cassis.Value.vint 1), ("@other", Cassis.Value.vint 3), ("xmiID", Cassis.Value.vint 2)]), (12, Cassis.Obj.sdict [("%ID", Cassis.Value.vint 2), ("%TYPE", Cassis.Value.vstr "x.Anno"), ("begin", Cassis.Value.vint 0), ("end", Cassis.Value.vint 1), ("@sofa", Cassis.Value.vint 1), ("@other", Cassis.Value.vint 3), ("xmiID", Cassis.Value.vint 2)]), (12, Cassis.Obj.sdict [("%ID", Cassis.Value.vint 2), ("%TYPE", Cassis.Value.vstr "x.Anno"), ("begin", Cassis.Value.vint 0), ("end", Cassis.Value.vint 1), ("@sofa", Cassis.Value.vint 1), ("@other", Cassis.Value.vint 3)]), (4, Cassis.Obj.sofa { sofaNum := 1, xmiID := 1, sofaID := "_InitialView", sofaString := none, mimeType := none, sofaURI := none, sofaArray := none }), (4, Cassis.Obj.sofa { sofaNum := 1, xmiID := 1, sofaID := "_InitialView", sofaString := none, mimeType := none, sofaURI := none, sofaArray := none }), (4, Cassis.Obj.sofa { sofaNum := 1, xmiID := 1, sofaID := "_InitialView", sofaString := none, mimeType := none, sofaURI := none, sofaArray := none }), (4, Cassis.Obj.sofa { sofaNum := 1, xmiID := 1, sofaID := "_InitialView", sofaString := none, mimeType := none, sofaURI := none, sofaArray := none }), (4, Cassis.Obj.sofa { sofaNum := 1, xmiID := 1, sofaID := "_InitialView", sofaString := none, mimeType := none, sofaURI := none, sofaArray := none }), (6, Cassis.Obj.dict [("_InitialView", 10)]), (7, Cassis.Obj.dict [("_InitialView", 11)]), (11, Cassis.Obj.view { sofa := 10, indices := [] }), (10, Cassis.Obj.sofa { sofaNum := 1, xmiID := 1, sofaID := "_InitialView", sofaString := none, mimeType := none, sofaURI := none, sofaArray := none }), (9, Cassis.Obj.gen 2), (8, Cassis.Obj.gen 2), (9, Cassis.Obj.gen 1), (8, Cassis.Obj.gen 1), (7, Cassis.Obj.dict []), (6, Cassis.Obj.dict []), (0, Cassis.Obj.dict [("_InitialView", 4)]), (1, Cassis.Obj.dict [("_InitialView", 5)]), (5, Cassis.Obj.view { sofa := 4, indices := [] }), (4, Cassis.Obj.sofa { sofaNum := 1, xmiID := 1, sofaID := "_InitialView", sofaString := none, mimeType := none, sofaURI := none, sofaArray := none }), (3, Cassis.Obj.gen 2), (2, Cassis.Obj.gen 2), (3, Cassis.Obj.gen 1), (2, Cassis.Obj.gen 1), (1, Cassis.Obj.dict []), (0, Cassis.Obj.dict [])], next := 24 }

theorem s0test : casNew tsX {} = (Except.ok c0, H0) := rfl

set_option maxHeartbeats 2000000 in
theorem s1test : (parseRecordsList tsX { ts := tsX, viewsRef := 1, sofasRef := 0, xmiGenRef := 2, sofaGenRef := 3, currentView := 5 } c1Recs [] {}) H0 = (Except.ok (c1Table, { maxXmiId := 3, maxSofaNum := 0, postProcs := [{ dictNat := 12, featName := "other", keyVal := Value.vint 2 }] }), c1H1) := rfl

set_option maxHeartbeats 2000000 in
theorem s2test : (runPostProcs c1Table [{ dictNat := 12, featName := "other", keyVal := Value.vint 2 }]) c1H1 = (Except.ok (), c1H2) := rfl

set_option maxHeartbeats 2000000 in
theorem s3atest : (allocObj (Obj.gen 4)) c1H2 = (Except.ok 16, c1H2x) := rfl

set_option maxHeartbeats 2000000 in
theorem s3btest : (allocObj (Obj.gen 1)) c1H2x = (Except.ok 17, c1H2b) := rfl

set_option maxHeartbeats 2000000 in
theorem s4test : (processViews { ts := tsX, viewsRef := 1, sofasRef := 0, xmiGenRef := 16, sofaGenRef := 17, currentView := 5 } c1Table c1Views) c1H2b = (Except.ok (), c1H3) := rfl

def casC1 : CasObj := { ts := tsX, viewsRef := 1, sofasRef := 0, xmiGenRef := 16, sofaGenRef := 17, currentView := 5 }

set_option maxHeartbeats 1000000 in
theorem c1glue :
    deserializeData tsX c1Wire {} = (Except.ok casC1, c1H3) := by
  simp [deserializeData, c1Wire, bindApply, pureApply, alookup,
        TYPES_FIELD, VIEWS_FIELD, FEATURE_STRUCTURES_FIELD,
        s0test, s1test, s2test, s3atest, s3btest, s4test, c0, casC1]

set_option maxHeartbeats 2000000 in
/-- C1: the serialize/deserialize round trip does not preserve the
reference graph.  The document of `c1Build` holds two annotations where the
first (identifier 2, address 7) references the second (identifier 3,
address 6) through its `other` feature; its serialization is exactly
`c1Wire`, whose identifier-2 record carries `"@other": 3` — a forward
reference, since record 3 appears later in the stream.  Deserializing
`c1Wire` yields a document whose identifier-2 structure (address 13) has
`other = None`: the deferred fix-up wrote into the discarded `attributes`
dict instead of the constructed structure, so the reference is lost and the
round trip changes the field values and the reference-graph topology. -/
theorem c1_round_trip_drops_reference :
    okOf (c1Build {}) = some c1Wire ∧
    fsAttrValue (c1Build {}).2 7 "other" = some (Value.vref 6) ∧
    (match (c1Build {}).2.lookup 7 with | some (Obj.fs f) => f.xmiID | _ => none) = some 2 ∧
    (match (c1Build {}).2.lookup 6 with | some (Obj.fs f) => f.xmiID | _ => none) = some 3 ∧
    deserializeData tsX c1Wire {} = (Except.ok casC1, c1H3) ∧
    (match c1H3.lookup 13 with | some (Obj.fs f) => f.xmiID | _ => none) = some 2 ∧
    fsAttrValue c1H3 13 "other" = some Value.vnull ∧
    fsAttrValue c1H3 13 "begin" = some (Value.vint 0) := by
  refine ⟨rfl, rfl, rfl, rfl, c1glue, rfl, rfl, rfl⟩

def dataC2 : Value :=
  Value.vobj [(TYPES_FIELD, Value.vobj []),
              (VIEWS_FIELD, Value.vobj []),
              (FEATURE_STRUCTURES_FIELD, Value.varr
                [Value.vobj [(ID_FIELD, Value.vint 1), (TYPE_FIELD, Value.vstr "x.Anno"),
                             ("begin", Value.vint 0), ("end", Value.vint 1),
                             ("@other", Value.vint 2)],
                 Value.vobj [(ID_FIELD, Value.vint 2), (TYPE_FIELD, Value.vstr "x.Anno"),
                             ("begin", Value.vint 1), ("end", Value.vint 2)]])]

def casC2 : CasObj := { ts := tsX, viewsRef := 1, sofasRef := 0, xmiGenRef := 10, sofaGenRef := 11, currentView := 5 }

set_option maxHeartbeats 2000000 in
/-- C2: a forward reference is not resolved.  In `dataC2`, the record with
identifier 1 carries `"@other": 2` while record 2 appears later in the
stream.  Deserialization completes, but the constructed identifier-1
structure (address 7) has no `other` value — reading it gives `None` — even
though the target structure (identifier 2, address 9) exists; the deferred
fix-up instead appended an `other` entry to the already-consumed
`attributes` dict (address 6), and with the loop-variable late binding it
even names the wrong target: address 7, the referring structure itself. -/
theorem c2_forward_reference_dropped :
    okOf (deserializeData tsX dataC2 {}) = some casC2 ∧
    (deserializeData tsX dataC2 {}).2.lookup 7 = some (Obj.fs { typeName := "x.Anno", xmiID := some 1, slots := ["begin", "end", "sofa", "other"], attrs := [("begin", Value.vint 0), ("end", Value.vint 1)] }) ∧
    fsAttrValue (deserializeData tsX dataC2 {}).2 7 "other" = some Value.vnull ∧
    (match (deserializeData tsX dataC2 {}).2.lookup 9 with | some (Obj.fs f) => f.xmiID | _ => none) = some 2 ∧
    (deserializeData tsX dataC2 {}).2.lookup 6 = some (Obj.sdict [("begin", Value.vint 0), ("end", Value.vint 1), ("xmiID", Value.vint 1), ("other", Value.vref 7)]) := by
  refine ⟨rfl, rfl, rfl, rfl, rfl⟩

def dataC3 : Value :=
  Value.vobj [(TYPES_FIELD, Value.vobj []),
              (VIEWS_FIELD, Value.vobj []),
              (FEATURE_STRUCTURES_FIELD, Value.varr
                [Value.vobj [(ID_FIELD, Value.vint 5), (TYPE_FIELD, Value.vstr "uima.cas.Sofa"),
                             ("sofaNum", Value.vint 2), ("sofaID", Value.vstr "v2")],
                 Value.vobj [(ID_FIELD, Value.vint 2), (TYPE_FIELD, Value.vstr "x.Anno"),
                             ("begin", Value.vint 0), ("end", Value.vint 1)]])]

def casC3 : CasObj := { ts := tsX, viewsRef := 1, sofasRef := 0, xmiGenRef := 16, sofaGenRef := 17, currentView := 5 }

set_option maxHeartbeats 2000000 in
/-- C3: the allocators are not seeded past the input.  `dataC3` carries a
Sofa record with identifier 5 and sofa number 2.  After deserialization the
identifier allocator will issue 3 next (`_parse_sofa` never feeds the Sofa
record's identifier into `_max_xmi_id`) and the sofa-number allocator will
issue 1 (`_max_sofa_num` is never updated anywhere), so the next identifier
does not exceed the input's maximum identifier 5 and the next sofa number
does not exceed the input's maximum sofa number 2. -/
theorem c3_allocators_not_seeded_past_input :
    okOf (deserializeData tsX dataC3 {}) = some casC3 ∧
    nextXmiId (deserializeData tsX dataC3 {}).2 casC3 = some 3 ∧
    nextSofaNum (deserializeData tsX dataC3 {}).2 casC3 = some 1 ∧
    sofaOfView (deserializeData tsX dataC3 {}).2 casC3 "v2" =
      some { sofaNum := 2, xmiID := 5, sofaID := "v2" } ∧
    ¬((5 : Int) < 3) ∧ ¬((2 : Int) < 1) := by
  refine ⟨rfl, rfl, rfl, rfl, by decide, by decide⟩

theorem parseFS_dangling (h : Heap) (table : Table) (st : DState) (i tid b e : Int)
    (hdang : ilookup tid table = none) :
    parseFeatureStructure tsX (Value.vint i)
      [("%ID", Value.vint i), ("%TYPE", Value.vstr "x.Anno"),
       ("begin", Value.vint b), ("end", Value.vint e), ("@other", Value.vint tid)]
      table st h =
    (Except.ok (h.next + 1,
      { st with maxXmiId := max i st.maxXmiId, postProcs := st.postProcs ++ [{ dictNat := h.next, featName := "other", keyVal := Value.vint i }] }),
     { cells := (h.next + 1, Obj.fs { typeName := "x.Anno", xmiID := some i, slots := ["begin", "end", "sofa", "other"], attrs := [("begin", Value.vint b), ("end", Value.vint e)] }) :: (h.next, Obj.sdict [("begin", Value.vint b), ("end", Value.vint e), ("xmiID", Value.vint i)]) :: (h.next, Obj.sdict [("%ID", Value.vint i), ("%TYPE", Value.vstr "x.Anno"), ("begin", Value.vint b), ("end", Value.vint e), ("xmiID", Value.vint i)]) :: (h.next, Obj.sdict [("%ID", Value.vint i), ("%TYPE", Value.vstr "x.Anno"), ("begin", Value.vint b), ("end", Value.vint e), ("@other", Value.vint tid), ("xmiID", Value.vint i)]) :: (h.next, Obj.sdict [("%ID", Value.vint i), ("%TYPE", Value.vstr "x.Anno"), ("begin", Value.vint b), ("end", Value.vint e), ("@other", Value.vint tid)]) :: h.cells, next := h.next + 2 }) := by
  have k1 : strStartsWith "@" "%ID" = false := rfl
  have k2 : strStartsWith "@" "%TYPE" = false := rfl
  have k3 : strStartsWith "@" "begin" = false := rfl
  have k4 : strStartsWith "@" "end" = false := rfl
  have k5 : strStartsWith "@" "@other" = true := rfl
  have k6 : strStartsWith "@" "xmiID" = false := rfl
  have k7 : ("@other".drop 1) = "other" := rfl
  have k8 : strStartsWith "%" "%ID" = true := rfl
  have k9 : strStartsWith "%" "%TYPE" = true := rfl
  have k10 : strStartsWith "%" "begin" = false := rfl
  have k11 : strStartsWith "%" "end" = false := rfl
  have k12 : strStartsWith "%" "xmiID" = false := rfl
  simp [parseFeatureStructure, getTypeM, TypeSystem.getType?, tsX, allocObj, Heap.alloc,
        readSDict, readObj, writeObj, Heap.set, Heap.lookup, Heap.lookup.go, bindApply, pureApply,
        alookup, aset, apop, resolveReferences, resolveRefsLoop, stripReservedKeys,
        mkFS, mkFSGo, TYPE_FIELD, ID_FIELD, ELEMENTS_FIELD, TYPE_NAME_BYTE_ARRAY,
        REF_FEATURE_MARKER, RESERVED_FIELD_MARKER, List.find?, List.map, List.filter,
        List.replicate, k1, k2, k3, k4, k5, k6, k7, k8, k9, k10, k11, k12, hdang]


/-- The one-record wire input with a dangling reference: the only record
(identifier `i`) carries `"@other": tid` for a target identifier `tid`
matching no record in the stream. -/
def c10Wire (i b e tid : Int) : Value :=
  Value.vobj [("%TYPES", Value.vobj []),
              ("%VIEWS", Value.vobj []),
              ("%FEATURE_STRUCTURES", Value.varr
                [Value.vobj [("%ID", Value.vint i), ("%TYPE", Value.vstr "x.Anno"),
                             ("begin", Value.vint b), ("end", Value.vint e),
                             ("@other", Value.vint tid)]])]

def c10Cas : CasObj := { ts := tsX, viewsRef := 1, sofasRef := 0, xmiGenRef := 8, sofaGenRef := 9, currentView := 5 }

/-- C10: a dangling reference is silently dropped.  First, for every heap,
every identifier table in which the target `tid` is unbound, and every
deserializer state, parsing a record that carries `"@other": tid` completes
without an error: the reference key is popped, one fix-up is deferred, and
the constructed structure's `other` feature reads `None`.  Second, the full
pipeline on the one-record wire `c10Wire` — whose only record has
identifier `i` and a reference to `tid ≠ i`, an identifier matching no
record in the stream — returns a document without raising, whose
reconstructed structure has its span fields but `other = None`. -/
theorem c10_dangling_reference_dropped (h : Heap) (table : Table) (st : DState) (i b e tid : Int)
    (hdang : ilookup tid table = none) (_hne : tid ≠ i) :
    (∃ h₂,
      parseFeatureStructure tsX (Value.vint i)
        [("%ID", Value.vint i), ("%TYPE", Value.vstr "x.Anno"),
         ("begin", Value.vint b), ("end", Value.vint e), ("@other", Value.vint tid)]
        table st h =
      (Except.ok (h.next + 1, { st with maxXmiId := max i st.maxXmiId, postProcs := st.postProcs ++ [{ dictNat := h.next, featName := "other", keyVal := Value.vint i }] }), h₂) ∧
      h₂.lookup (h.next + 1) = some (Obj.fs { typeName := "x.Anno", xmiID := some i, slots := ["begin", "end", "sofa", "other"], attrs := [("begin", Value.vint b), ("end", Value.vint e)] }) ∧
      FSObj.getattr { typeName := "x.Anno", xmiID := some i, slots := ["begin", "end", "sofa", "other"], attrs := [("begin", Value.vint b), ("end", Value.vint e)] } "other" = some Value.vnull ∧
      (∀ a, a ≠ h.next → a ≠ h.next + 1 → h₂.lookup a = h.lookup a) ∧
      h₂.next = h.next + 2) ∧
    (∃ h₃,
      deserializeData tsX (c10Wire i b e tid) {} = (Except.ok c10Cas, h₃) ∧
      h₃.lookup 7 = some (Obj.fs { typeName := "x.Anno", xmiID := some i, slots := ["begin", "end", "sofa", "other"], attrs := [("begin", Value.vint b), ("end", Value.vint e)] }) ∧
      fsAttrValue h₃ 7 "other" = some Value.vnull ∧
      nextXmiId h₃ c10Cas = some (max i 0 + 1)) := by
  constructor
  · refine ⟨_, parseFS_dangling h table st i tid b e hdang, ?_, rfl, ?_, rfl⟩
    · simp [Heap.lookup, Heap.lookup.go]
    · intro a ha1 ha2
      simp [Heap.lookup, Heap.lookup.go, ha1, ha2]
  · have hp7 : parseFeatureStructure tsX (Value.vint i)
        [("%ID", Value.vint i), ("%TYPE", Value.vstr "x.Anno"),
         ("begin", Value.vint b), ("end", Value.vint e), ("@other", Value.vint tid)]
        [] {} H0 =
      (Except.ok (7, ({ maxXmiId := max i 0, maxSofaNum := 0, postProcs := [{ dictNat := 6, featName := "other", keyVal := Value.vint i }] } : DState)),
       { cells := (7, Obj.fs { typeName := "x.Anno", xmiID := some i, slots := ["begin", "end", "sofa", "other"], attrs := [("begin", Value.vint b), ("end", Value.vint e)] }) :: (6, Obj.sdict [("begin", Value.vint b), ("end", Value.vint e), ("xmiID", Value.vint i)]) :: (6, Obj.sdict [("%ID", Value.vint i), ("%TYPE", Value.vstr "x.Anno"), ("begin", Value.vint b), ("end", Value.vint e), ("xmiID", Value.vint i)]) :: (6, Obj.sdict [("%ID", Value.vint i), ("%TYPE", Value.vstr "x.Anno"), ("begin", Value.vint b), ("end", Value.vint e), ("@other", Value.vint tid), ("xmiID", Value.vint i)]) :: (6, Obj.sdict [("%ID", Value.vint i), ("%TYPE", Value.vstr "x.Anno"), ("begin", Value.vint b), ("end", Value.vint e), ("@other", Value.vint tid)]) :: H0.cells, next := 8 }) :=
      parseFS_dangling H0 [] {} i tid b e rfl
    refine ⟨{ cells := (9, Obj.gen 1) :: (8, Obj.gen (max i 0 + 1)) :: (6, Obj.sdict [("begin", Value.vint b), ("end", Value.vint e), ("xmiID", Value.vint i), ("other", Value.vref 7)]) :: (7, Obj.fs { typeName := "x.Anno", xmiID := some i, slots := ["begin", "end", "sofa", "other"], attrs := [("begin", Value.vint b), ("end", Value.vint e)] }) :: (6, Obj.sdict [("begin", Value.vint b), ("end", Value.vint e), ("xmiID", Value.vint i)]) :: (6, Obj.sdict [("%ID", Value.vint i), ("%TYPE", Value.vstr "x.Anno"), ("begin", Value.vint b), ("end", Value.vint e), ("xmiID", Value.vint i)]) :: (6, Obj.sdict [("%ID", Value.vint i), ("%TYPE", Value.vstr "x.Anno"), ("begin", Value.vint b), ("end", Value.vint e), ("@other", Value.vint tid), ("xmiID", Value.vint i)]) :: (6, Obj.sdict [("%ID", Value.vint i), ("%TYPE", Value.vstr "x.Anno"), ("begin", Value.vint b), ("end", Value.vint e), ("@other", Value.vint tid)]) :: H0.cells, next := 10 }, ?_, ?_, ?_, ?_⟩
    · simp [deserializeData, c10Wire, bindApply, pureApply, alookup, s0test, c0, hp7,
            parseRecordsList, isSofaRecord, TYPE_FIELD, ID_FIELD, TYPE_NAME_SOFA,
            TYPES_FIELD, VIEWS_FIELD, FEATURE_STRUCTURES_FIELD,
            readFS, readObj, Heap.lookup, Heap.lookup.go, writeObj, Heap.set,
            readSDict, runPostProcs, ilookup, iset, aset, processViews, allocObj, Heap.alloc,
            c10Cas]
    · simp [Heap.lookup, Heap.lookup.go]
    · simp [fsAttrValue, Heap.lookup, Heap.lookup.go, FSObj.getattr, alookup]
    · simp [nextXmiId, c10Cas, Heap.lookup, Heap.lookup.go]

theorem c10_witness :
    (∃ h₂,
      parseFeatureStructure tsX (Value.vint 1)
        [("%ID", Value.vint 1), ("%TYPE", Value.vstr "x.Anno"),
         ("begin", Value.vint 0), ("end", Value.vint 2), ("@other", Value.vint 3)]
        [(5, 77)] {} heapNil =
      (Except.ok (1, { maxXmiId := max 1 0, maxSofaNum := 0, postProcs := [{ dictNat := 0, featName := "other", keyVal := Value.vint 1 }] }), h₂) ∧
      h₂.lookup 1 = some (Obj.fs { typeName := "x.Anno", xmiID := some 1, slots := ["begin", "end", "sofa", "other"], attrs := [("begin", Value.vint 0), ("end", Value.vint 2)] }) ∧
      FSObj.getattr { typeName := "x.Anno", xmiID := some 1, slots := ["begin", "end", "sofa", "other"], attrs := [("begin", Value.vint 0), ("end", Value.vint 2)] } "other" = some Value.vnull ∧
      (∀ a, a ≠ 0 → a ≠ 1 → h₂.lookup a = heapNil.lookup a) ∧
      h₂.next = 2) ∧
    (∃ h₃,
      deserializeData tsX (c10Wire 1 0 2 3) {} = (Except.ok c10Cas, h₃) ∧
      h₃.lookup 7 = some (Obj.fs { typeName := "x.Anno", xmiID := some 1, slots := ["begin", "end", "sofa", "other"], attrs := [("begin", Value.vint 0), ("end", Value.vint 2)] }) ∧
      fsAttrValue h₃ 7 "other" = some Value.vnull ∧
      nextXmiId h₃ c10Cas = some (max 1 0 + 1)) :=
  c10_dangling_reference_dropped heapNil [(5, 77)] {} 1 0 2 3 rfl (by decide)

end Cassis
